import Mathlib

/-!
Watcharr: the Plex sync pipeline and its launch facade.

A shallow embedding of `server/plex_sync.go`, of the job query route of
`server/routes.go` and of `server/config.go`.

The pipeline talks to three collaborators whose code lives outside the embedded
files: the Plex catalog (`plexGetLibraries`, `plexGetLibraryItems`), the merge
importer (`addWatched`) and the job store (`addJob`, `updateJobStatus`,
`updateJobCurrentTask`, `addJobError`).  The first three are calls whose results
the pipeline branches on; they are fields of an environment `Env σ` acting on an
explicit world state `σ` (remote server plus database).  Every call to a
collaborator is recorded, in program order, in a trace of `Event`s; the job-store
writes return nothing the pipeline looks at, so they are trace events only.
Logging (`slog`) has no effect on the job or the collection and is left out.
-/

namespace Watcharr

/-! ## Go values -/

/-- A Go `error` value: the dynamic type of the value behind the interface and
the text its `Error()` method returns. -/
structure GoError where
  dynType : String
  text : String
deriving DecidableEq, Repr

/-- The method `Error()` of a Go error. -/
def GoError.Error (e : GoError) : String := e.text

/-- Go `errors.New`. -/
def errorsNew (text : String) : GoError := ⟨"*errors.errorString", text⟩

/-- Go `strings.HasPrefix`. -/
def hasPrefix (s pre : String) : Bool := pre.data.isPrefixOf s.data

/-- Go slice expression `s[n:]` on a string whose first `n` bytes are ASCII. -/
def sliceFrom (s : String) (n : Nat) : String := ⟨s.data.drop n⟩

/-- Value of an ASCII decimal digit. -/
def digitVal (c : Char) : Option Nat :=
  if 48 ≤ c.toNat ∧ c.toNat ≤ 57 then some (c.toNat - 48) else none

/-- Decimal digits to a natural number, most significant digit first; `none` on a
character that is not a digit. -/
def parseDigits : List Char → Nat → Option Nat
  | [], acc => some acc
  | c :: cs, acc =>
    match digitVal c with
    | none => none
    | some d => parseDigits cs (acc * 10 + d)

/-- Go `strconv.Atoi` on a 64-bit platform: an optional sign, then at least one
decimal digit and nothing else; the value has to fit an `int`.  `none` stands
for a non-nil error (syntax or range). -/
def atoi (s : String) : Option Int :=
  match s.data with
  | [] => none
  | c :: cs =>
    let body := if c = '-' ∨ c = '+' then cs else c :: cs
    if body = [] then none else
    match parseDigits body 0 with
    | none => none
    | some un =>
      if c = '-' then
        if un > 2 ^ 63 then none else some (-(un : Int))
      else
        if un ≥ 2 ^ 63 then none else some (un : Int)

/-- Go conversion `int8(x)` of an integer: the low 8 bits, two's complement. -/
def int8 (x : Int) : Int := (x + 128) % 256 - 128

/-- Go conversion `int64(x)` of an integer: the low 64 bits, two's complement. -/
def int64 (x : Int) : Int := (x + 2 ^ 63) % 2 ^ 64 - 2 ^ 63

/-- Go `time.Time` as built by `time.Unix`. -/
structure Time where
  sec : Int
  nsec : Int
deriving DecidableEq, Repr

/-- Go `time.Unix(sec, nsec)`. -/
def timeUnix (sec nsec : Int) : Time := ⟨sec, nsec⟩

/-! ## Data model -/

/-- Modelled from the spec: the job status type, declared outside the embedded
files; "one of `PENDING | RUNNING | DONE`". -/
inductive JobStatus where
  | JOB_PENDING
  | JOB_RUNNING
  | JOB_DONE
deriving DecidableEq, Repr

/-- Position of a status in the lifecycle `PENDING → RUNNING → DONE`. -/
def JobStatus.rank : JobStatus → Nat
  | .JOB_PENDING => 0
  | .JOB_RUNNING => 1
  | .JOB_DONE => 2

/-- Go `WatchedStatus`; the named type is declared outside the embedded files. -/
abbrev WatchedStatus := String

/-- Go `ContentType`; the named type is declared outside the embedded files. -/
abbrev ContentType := String

/-- Go `ImportSource`, the provenance tag of a watched entry; declared outside
the embedded files. -/
abbrev ImportSource := String

/-- One external id of a Plex item (`movie.Guid[i]`). -/
structure PlexGuid where
  ID : String
deriving DecidableEq, Repr

/-- Modelled from the spec: a Plex library item, declared outside the embedded
files; "items expose a watch count, a user rating, a title, a last-watched
timestamp, and zero or more cross-reference identifiers".  The numeric fields
are integers. -/
structure PlexLibraryItem where
  Title : String
  ViewCount : Int
  UserRating : Int
  LastViewedAt : Int
  Guid : List PlexGuid
deriving DecidableEq, Repr

/-- Modelled from the spec: a Plex library ("container"), declared outside the
embedded files; the pipeline reads its `Type` and its `Key`. -/
structure PlexLibrary where
  Key : String
  Type_ : String
deriving DecidableEq, Repr

/-- The request handed to `addWatched`, with the fields the pipeline sets. -/
structure WatchedAddRequest where
  Status : WatchedStatus
  ContentID : Int
  ContentType : ContentType
  Rating : Int
  WatchedDate : Time
deriving DecidableEq, Repr

/-- `PlexSyncResponse`. -/
structure PlexSyncResponse where
  JobId : String
deriving DecidableEq, Repr

/-- One call to a collaborator, as it appears in the program text. -/
inductive Event where
  | addJob (kind : String) (userId : Nat)
  | updateJobStatus (jobId : String) (userId : Nat) (status : JobStatus)
  | updateJobCurrentTask (jobId : String) (userId : Nat) (task : String)
  | addJobError (jobId : String) (userId : Nat) (err : String)
  | plexGetLibraries (auth : String)
  | plexGetLibraryItems (auth : String) (key : String)
  | addWatched (userId : Nat) (req : WatchedAddRequest) (source : ImportSource)
  | go (jobId : String) (userId : Nat) (auth : String)
deriving DecidableEq, Repr

/-- The collaborators and package constants `plex_sync.go` uses but does not
declare.  `σ` is the state of the outside world (Plex server, database, job id
generator); a call returns its result and the next state.  `addWatched` returns
its error only: the pipeline discards the created entry. -/
structure Env (σ : Type) where
  MOVIES : String
  TV_SHOWS : String
  FINISHED : WatchedStatus
  MOVIE : ContentType
  IMPORTED_WATCHED_PLEX : ImportSource
  addJob : String → Nat → σ → Except GoError String × σ
  plexGetLibraries : String → σ → Except GoError (List PlexLibrary) × σ
  plexGetLibraryItems : String → String → σ → Except GoError (List PlexLibraryItem) × σ
  addWatched : Nat → WatchedAddRequest → ImportSource → σ → Option GoError × σ

/-! ## `plexSyncWatched` -/

/-- The guid loop of `plexSyncWatched` (`tmdbIdStr := ""; for _, v := range
movie.Guid { if HasPrefix(v.ID, "tmdb://") { tmdbIdStr = v.ID[7:]; break } }`). -/
def findTmdbIdStr : List PlexGuid → String
  | [] => ""
  | v :: rest => if hasPrefix v.ID "tmdb://" then sliceFrom v.ID 7 else findTmdbIdStr rest

/-- The request `plexSyncWatched` builds for a movie with tmdb id `tmdbId`. -/
def movieRequest {σ : Type} (env : Env σ) (movie : PlexLibraryItem) (tmdbId : Int) :
    WatchedAddRequest :=
  { Status := env.FINISHED
    ContentID := tmdbId
    ContentType := env.MOVIE
    Rating := int8 movie.UserRating
    WatchedDate := timeUnix (int64 movie.LastViewedAt) 0 }

/-- One iteration of `for _, movie := range movies`: the events it performs and
the world it leaves.  Every branch ends the iteration (`continue` or the end of
the body). -/
def syncMovie {σ : Type} (env : Env σ) (jobId : String) (userId : Nat)
    (movie : PlexLibraryItem) (w : σ) : List Event × σ :=
  if movie.ViewCount = 0 ∧ movie.UserRating = 0 then
    ([], w)
  else if movie.Guid.length ≤ 0 then
    ([.updateJobCurrentTask jobId userId ("importing movie " ++ movie.Title),
      .addJobError jobId userId
        ("movie could not be imported (no external ids present): " ++ movie.Title)], w)
  else if findTmdbIdStr movie.Guid = "" then
    ([.updateJobCurrentTask jobId userId ("importing movie " ++ movie.Title),
      .addJobError jobId userId
        ("movie could not be imported (no tmdbId present): " ++ movie.Title)], w)
  else
    match atoi (findTmdbIdStr movie.Guid) with
    | none =>
      ([.updateJobCurrentTask jobId userId ("importing movie " ++ movie.Title),
        .addJobError jobId userId
          ("movie could not be imported (tmdbId was not parseable): " ++ movie.Title)], w)
    | some tmdbId =>
      match env.addWatched userId (movieRequest env movie tmdbId) env.IMPORTED_WATCHED_PLEX w with
      | (none, w1) =>
        ([.updateJobCurrentTask jobId userId ("importing movie " ++ movie.Title),
          .addWatched userId (movieRequest env movie tmdbId) env.IMPORTED_WATCHED_PLEX], w1)
      | (some err, w1) =>
        if err.Error = "content already on watched list" then
          ([.updateJobCurrentTask jobId userId ("importing movie " ++ movie.Title),
            .addWatched userId (movieRequest env movie tmdbId) env.IMPORTED_WATCHED_PLEX], w1)
        else
          ([.updateJobCurrentTask jobId userId ("importing movie " ++ movie.Title),
            .addWatched userId (movieRequest env movie tmdbId) env.IMPORTED_WATCHED_PLEX,
            .addJobError jobId userId ("failed to add movie " ++ movie.Title)], w1)

/-- The loop `for _, movie := range movies`. -/
def syncMovies {σ : Type} (env : Env σ) (jobId : String) (userId : Nat) :
    List PlexLibraryItem → σ → List Event × σ
  | [], w => ([], w)
  | movie :: rest, w =>
    ((syncMovie env jobId userId movie w).1 ++
        (syncMovies env jobId userId rest (syncMovie env jobId userId movie w).2).1,
      (syncMovies env jobId userId rest (syncMovie env jobId userId movie w).2).2)

/-- One iteration of `for _, library := range libraries`.  The TV-show branch
starts with `continue`; the statements after it are never executed. -/
def syncLibrary {σ : Type} (env : Env σ) (jobId : String) (userId : Nat) (auth : String)
    (library : PlexLibrary) (w : σ) : List Event × σ :=
  if library.Type_ = env.MOVIES then
    match env.plexGetLibraryItems auth library.Key w with
    | (.error _, w1) =>
      ([.updateJobCurrentTask jobId userId "importing movies",
        .plexGetLibraryItems auth library.Key,
        .addJobError jobId userId ("failed to fetch movies from library " ++ library.Key)], w1)
    | (.ok movies, w1) =>
      ([.updateJobCurrentTask jobId userId "importing movies",
        .plexGetLibraryItems auth library.Key] ++ (syncMovies env jobId userId movies w1).1,
        (syncMovies env jobId userId movies w1).2)
  else if library.Type_ = env.TV_SHOWS then
    ([], w)
  else
    ([], w)

/-- The loop `for _, library := range libraries`. -/
def syncLibraries {σ : Type} (env : Env σ) (jobId : String) (userId : Nat) (auth : String) :
    List PlexLibrary → σ → List Event × σ
  | [], w => ([], w)
  | library :: rest, w =>
    ((syncLibrary env jobId userId auth library w).1 ++
        (syncLibraries env jobId userId auth rest
          (syncLibrary env jobId userId auth library w).2).1,
      (syncLibraries env jobId userId auth rest
          (syncLibrary env jobId userId auth library w).2).2)

/-- `plexSyncWatched`: the events of a whole run, in program order, and the world
it leaves.  The database handle `db` is part of the world. -/
def plexSyncWatched {σ : Type} (env : Env σ) (jobId : String) (userId : Nat)
    (userThirdPartyAuth : String) (w : σ) : List Event × σ :=
  match env.plexGetLibraries userThirdPartyAuth w with
  | (.error _, w1) =>
    ([.updateJobCurrentTask jobId userId "fetching libraries",
      .plexGetLibraries userThirdPartyAuth,
      .addJobError jobId userId "failed to get plex libraries",
      .updateJobStatus jobId userId .JOB_DONE], w1)
  | (.ok libraries, w1) =>
    ([.updateJobCurrentTask jobId userId "fetching libraries",
      .plexGetLibraries userThirdPartyAuth] ++
        (syncLibraries env jobId userId userThirdPartyAuth libraries w1).1 ++
        [.updateJobStatus jobId userId .JOB_DONE],
      (syncLibraries env jobId userId userThirdPartyAuth libraries w1).2)

/-! ## `startPlexSync` -/

/-- What a call of `startPlexSync` returns and does: the two Go results, the
events of the facade itself (the last one, `go`, starts the pipeline as a
goroutine) and the world it leaves. -/
structure StartResult (σ : Type) where
  resp : PlexSyncResponse
  err : Option GoError
  trace : List Event
  world : σ

/-- `startPlexSync`. -/
def startPlexSync {σ : Type} (env : Env σ) (userId : Nat) (userThirdPartyAuth : String)
    (w : σ) : StartResult σ :=
  match env.addJob "plex_sync" userId w with
  | (.error _, w1) =>
    { resp := ⟨""⟩
      err := some (errorsNew "failed to create job")
      trace := [.addJob "plex_sync" userId]
      world := w1 }
  | (.ok jobId, w1) =>
    { resp := ⟨jobId⟩
      err := none
      trace := [.addJob "plex_sync" userId,
                .updateJobStatus jobId userId .JOB_RUNNING,
                .go jobId userId userThirdPartyAuth]
      world := w1 }

/-- The events of every goroutine a trace starts, each run from the world `wp`
it finds when it is scheduled, in the order they were started. -/
def spawnedEvents {σ : Type} (env : Env σ) (wp : σ) : List Event → List Event
  | [] => []
  | .go jobId userId auth :: rest =>
    (plexSyncWatched env jobId userId auth wp).1 ++ spawnedEvents env wp rest
  | _ :: rest => spawnedEvents env wp rest

/-- A launched run in program order: the facade's events, then those of the
pipeline it started (a goroutine starts after the `go` statement that creates
it). -/
def launchedRun {σ : Type} (env : Env σ) (userId : Nat) (userThirdPartyAuth : String)
    (w wp : σ) : List Event :=
  (startPlexSync env userId userThirdPartyAuth w).trace ++
    spawnedEvents env wp (startPlexSync env userId userThirdPartyAuth w).trace

/-! ## Observations on traces -/

/-- The statuses written by `updateJobStatus`, in order. -/
def statusWrites : List Event → List JobStatus
  | [] => []
  | .updateJobStatus _ _ s :: rest => s :: statusWrites rest
  | _ :: rest => statusWrites rest

/-- The texts appended by `addJobError`, in order. -/
def jobErrors : List Event → List String
  | [] => []
  | .addJobError _ _ e :: rest => e :: jobErrors rest
  | _ :: rest => jobErrors rest

/-- The texts written by `updateJobCurrentTask`, in order. -/
def taskWrites : List Event → List String
  | [] => []
  | .updateJobCurrentTask _ _ t :: rest => t :: taskWrites rest
  | _ :: rest => taskWrites rest

/-- The importer calls, in order. -/
def importerCalls : List Event → List (Nat × WatchedAddRequest × ImportSource)
  | [] => []
  | .addWatched u r s :: rest => (u, r, s) :: importerCalls rest
  | _ :: rest => importerCalls rest

/-- The keys of the libraries whose items were fetched, in order. -/
def itemFetches : List Event → List String
  | [] => []
  | .plexGetLibraryItems _ k :: rest => k :: itemFetches rest
  | _ :: rest => itemFetches rest

/-- The goroutines started, in order. -/
def spawns : List Event → List (String × Nat × String)
  | [] => []
  | .go j u a :: rest => (j, u, a) :: spawns rest
  | _ :: rest => spawns rest

/-- The job operations of a trace (status, current task, error), in order. -/
def jobOps : List Event → List Event
  | [] => []
  | .updateJobStatus j u s :: rest => .updateJobStatus j u s :: jobOps rest
  | .updateJobCurrentTask j u t :: rest => .updateJobCurrentTask j u t :: jobOps rest
  | .addJobError j u e :: rest => .addJobError j u e :: jobOps rest
  | _ :: rest => jobOps rest

/-- A touched item: watched at least once or rated. -/
def touched (movie : PlexLibraryItem) : Bool :=
  !(decide (movie.ViewCount = 0) && decide (movie.UserRating = 0))

/-! ## The reference error list

The errors a run is expected to leave, described from the outside: which library
or which item each entry is about. -/

/-- What an error entry of a job is about. -/
inductive ErrorRef where
  | library (key : String)
  | item (title : String)
deriving DecidableEq, Repr

/-- An error text fits a reference entry: for a library it is the fetch-failure
message with the library key, for an item it is a text in which the item's title
occurs. -/
def ErrorRef.describes : ErrorRef → String → Prop
  | .library key, msg => msg = "failed to fetch movies from library " ++ key
  | .item title, msg => title.data <:+: msg.data

/-- The first Guid of an item, in list order, whose ID starts with `tmdb://`. -/
def firstTmdbGuid (movie : PlexLibraryItem) : Option PlexGuid :=
  movie.Guid.find? (fun g => hasPrefix g.ID "tmdb://")

/-- The usable tmdb id of an item: the integer after the `tmdb://` prefix of its
first prefixed Guid, when there is such a Guid and the text parses. -/
def usableTmdbId (movie : PlexLibraryItem) : Option Int :=
  match firstTmdbGuid movie with
  | none => none
  | some g => atoi (sliceFrom g.ID 7)

/-- Reference entries of one item: none for an untouched item; one naming the
title for a touched item without usable tmdb id; otherwise the item is handed to
the importer, and there is one entry naming the title when the import fails with
an error other than the duplicate one, none when it succeeds or is a duplicate. -/
def referenceItem {σ : Type} (env : Env σ) (userId : Nat) (movie : PlexLibraryItem) (w : σ) :
    List ErrorRef × σ :=
  if touched movie then
    match usableTmdbId movie with
    | none => ([.item movie.Title], w)
    | some n =>
      match env.addWatched userId (movieRequest env movie n) env.IMPORTED_WATCHED_PLEX w with
      | (none, w1) => ([], w1)
      | (some err, w1) =>
        if err.Error = "content already on watched list" then ([], w1)
        else ([.item movie.Title], w1)
  else ([], w)

/-- Reference entries of the items of a library, in order. -/
def referenceItems {σ : Type} (env : Env σ) (userId : Nat) :
    List PlexLibraryItem → σ → List ErrorRef × σ
  | [], w => ([], w)
  | movie :: rest, w =>
    ((referenceItem env userId movie w).1 ++
        (referenceItems env userId rest (referenceItem env userId movie w).2).1,
      (referenceItems env userId rest (referenceItem env userId movie w).2).2)

/-- Reference entries of a catalog: for each library of type movies, in catalog
order, the single library entry when its item fetch fails, else the entries of
its items; other libraries contribute nothing. -/
def referenceLibraries {σ : Type} (env : Env σ) (userId : Nat) (auth : String) :
    List PlexLibrary → σ → List ErrorRef × σ
  | [], w => ([], w)
  | library :: rest, w =>
    if library.Type_ = env.MOVIES then
      match env.plexGetLibraryItems auth library.Key w with
      | (.error _, w1) =>
        (.library library.Key :: (referenceLibraries env userId auth rest w1).1,
          (referenceLibraries env userId auth rest w1).2)
      | (.ok movies, w1) =>
        ((referenceItems env userId movies w1).1 ++
            (referenceLibraries env userId auth rest (referenceItems env userId movies w1).2).1,
          (referenceLibraries env userId auth rest (referenceItems env userId movies w1).2).2)
    else referenceLibraries env userId auth rest w

/-! ## A concrete world: a collection store behind the importer -/

/-- The collection store of the concrete world: the keys `(user, content id,
content type)` of its entries. -/
abbrev Store := List (Nat × Int × String)

/-- A concrete environment over a collection store.  The catalog answers are
given: `libs` for the library fetch, `items` for the items of a library by key.
The importer reports the content ids in `broken` as a storage fault, a key
already present as the duplicate condition, and inserts any other key; with no
`broken` id it is the collection store of the spec, "insert watched fact with
duplicate detection on `(user, content id, content type)`", its duplicate report
carrying the message the pipeline tests for.  Job ids come from `job`. -/
def storeEnv (job : Except GoError String) (libs : Except GoError (List PlexLibrary))
    (items : String → Except GoError (List PlexLibraryItem)) (broken : List Int) : Env Store where
  MOVIES := "movie"
  TV_SHOWS := "show"
  FINISHED := "FINISHED"
  MOVIE := "MOVIE"
  IMPORTED_WATCHED_PLEX := "IMPORTED_WATCHED_PLEX"
  addJob := fun _ _ db => (job, db)
  plexGetLibraries := fun _ db => (libs, db)
  plexGetLibraryItems := fun _ key db => (items key, db)
  addWatched := fun userId req _ db =>
    if req.ContentID ∈ broken then (some (errorsNew "database is locked"), db)
    else if (userId, req.ContentID, req.ContentType) ∈ db then
      (some (errorsNew "content already on watched list"), db)
    else (none, db ++ [(userId, req.ContentID, req.ContentType)])

/-- Item A of the example catalog: never watched, never rated. -/
def itemA : PlexLibraryItem :=
  { Title := "A", ViewCount := 0, UserRating := 0, LastViewedAt := 0,
    Guid := [⟨"imdb://tt0000001"⟩, ⟨"tmdb://11"⟩] }

/-- Item B of the example catalog: watched three times, with a tmdb Guid. -/
def itemB : PlexLibraryItem :=
  { Title := "B", ViewCount := 3, UserRating := 9, LastViewedAt := 1700000000,
    Guid := [⟨"imdb://tt0133093"⟩, ⟨"tmdb://603"⟩] }

/-- Item C of the example catalog: watched once, without any Guid. -/
def itemC : PlexLibraryItem :=
  { Title := "C", ViewCount := 1, UserRating := 0, LastViewedAt := 1700000500, Guid := [] }

/-- The example catalog: one movies library holding A, B and C. -/
def abcEnv : Env Store :=
  storeEnv (.ok "job-1") (.ok [⟨"1", "movie"⟩]) (fun _ => .ok [itemA, itemB, itemC]) []

/-- A world whose library fetch fails. -/
def downEnv : Env Store :=
  storeEnv (.ok "job-1") (.error (errorsNew "connection refused"))
    (fun _ => .ok [itemA, itemB, itemC]) []

/-- A world whose job store cannot create a job. -/
def noJobEnv : Env Store :=
  storeEnv (.error (errorsNew "out of entropy")) (.ok [⟨"1", "movie"⟩])
    (fun _ => .ok [itemA, itemB, itemC]) []

/-- A world whose store cannot save content id 603: importing B fails with an
error that is not the duplicate one. -/
def brokenEnv : Env Store :=
  storeEnv (.ok "job-1") (.ok [⟨"1", "movie"⟩]) (fun _ => .ok [itemA, itemB, itemC]) [603]

/-- A catalog of two movies libraries; the items of library "2" cannot be
fetched. -/
def partialEnv : Env Store :=
  storeEnv (.ok "job-1") (.ok [⟨"2", "movie"⟩, ⟨"1", "movie"⟩])
    (fun key => if key = "2" then .error (errorsNew "timeout") else .ok [itemA, itemB, itemC]) []

/-- Item D: rated, and its tmdb Guid does not hold a number. -/
def itemD : PlexLibraryItem :=
  { Title := "D", ViewCount := 0, UserRating := 7, LastViewedAt := 0,
    Guid := [⟨"tmdb://6o3"⟩, ⟨"tmdb://603"⟩] }

/-- The environment `env` with one item taken out of a library: the item fetch
for `key` answers as before, without the first occurrence of `movie`. -/
def Env.withoutItem {σ : Type} (env : Env σ) (key : String) (movie : PlexLibraryItem) : Env σ :=
  { env with
    plexGetLibraryItems := fun auth k w =>
      if k = key then
        match env.plexGetLibraryItems auth k w with
        | (.ok movies, w1) => (.ok (movies.erase movie), w1)
        | (.error e, w1) => (.error e, w1)
      else env.plexGetLibraryItems auth k w }

/-- The example catalog with an importer that fails every call with `err`. -/
def failingEnv (err : GoError) : Env Store :=
  { abcEnv with addWatched := fun _ _ _ db => (some err, db) }

/-! ## The store after a run -/

/-- Insert a key into the store unless it is already there. -/
def insertKey (db : Store) (k : Nat × Int × String) : Store :=
  if k ∈ db then db else db ++ [k]

/-- The store key under which `storeEnv` files an item, when the item reaches
the importer. -/
def importKey (userId : Nat) (movie : PlexLibraryItem) : Option (Nat × Int × String) :=
  if touched movie then (usableTmdbId movie).map (fun n => (userId, n, "MOVIE")) else none

/-- The keys a run over a catalog hands to the importer, in order. -/
def catalogKeys (userId : Nat) (items : String → Except GoError (List PlexLibraryItem)) :
    List PlexLibrary → List (Nat × Int × String)
  | [] => []
  | library :: rest =>
    if library.Type_ = "movie" then
      match items library.Key with
      | .ok movies => movies.filterMap (importKey userId) ++ catalogKeys userId items rest
      | .error _ => catalogKeys userId items rest
    else catalogKeys userId items rest

/-! ## The catalog walk -/

/-- The items of a run in walk order: the libraries in the order given and, for
each movies library whose item fetch succeeds, its items in the order the fetch
returned them.  Each fetch is made in the world the run has reached. -/
def fetchedItems {σ : Type} (env : Env σ) (jobId : String) (userId : Nat) (auth : String) :
    List PlexLibrary → σ → List PlexLibraryItem
  | [], _ => []
  | library :: rest, w =>
    if library.Type_ = env.MOVIES then
      match env.plexGetLibraryItems auth library.Key w with
      | (.ok movies, w1) =>
        movies ++ fetchedItems env jobId userId auth rest (syncMovies env jobId userId movies w1).2
      | (.error _, w1) => fetchedItems env jobId userId auth rest w1
    else fetchedItems env jobId userId auth rest w

/-- The importer call an item leads to, when it reaches the importer: it is
touched and has a usable tmdb id. -/
def importCall {σ : Type} (env : Env σ) (userId : Nat) (movie : PlexLibraryItem) :
    Option (Nat × WatchedAddRequest × ImportSource) :=
  if touched movie then
    (usableTmdbId movie).map (fun n => (userId, movieRequest env movie n, env.IMPORTED_WATCHED_PLEX))
  else none

/-- An item reaches the importer. -/
def reachesImporter (movie : PlexLibraryItem) : Bool :=
  touched movie && (usableTmdbId movie).isSome

/-- The current-task text written for an item. -/
def itemTask (movie : PlexLibraryItem) : String := "importing movie " ++ movie.Title

/-- The per-item current-task updates of a trace: the task texts that start with
"importing movie " (the per-library text is "importing movies"). -/
def itemTaskWrites (t : List Event) : List String :=
  (taskWrites t).filter (fun s => hasPrefix s "importing movie ")

/-- The environment `env` with one library taken out of the catalog: the library
fetch answers as before, without the first occurrence of `library`. -/
def Env.withoutLibrary {σ : Type} (env : Env σ) (library : PlexLibrary) : Env σ :=
  { env with
    plexGetLibraries := fun auth w =>
      match env.plexGetLibraries auth w with
      | (.ok libraries, w1) => (.ok (libraries.erase library), w1)
      | (.error e, w1) => (.error e, w1) }

/-- A catalog with a TV-show library, a music library and a movies library. -/
def tvEnv : Env Store :=
  storeEnv (.ok "job-1") (.ok [⟨"9", "show"⟩, ⟨"5", "artist"⟩, ⟨"1", "movie"⟩])
    (fun _ => .ok [itemA, itemB, itemC]) []

/-! ## The job query route (`routes.go`, `addJobRoutes`) -/

/-- Modelled from the spec: a job record of the job store, declared outside the
embedded files; "id, ownerUserId, kind, status, currentTask, errors,
createdAt". -/
structure Job where
  id : String
  ownerUserId : Nat
  kind : String
  status : JobStatus
  currentTask : String
  errors : List String
  createdAt : Int
deriving DecidableEq, Repr

/-- Modelled from the spec: the failure of `getJob` for an unknown id
(`NotFound`). -/
def errJobNotFound : GoError := ⟨"NotFound", "job not found"⟩

/-- Modelled from the spec: the failure of `getJob` for a caller who is not the
owner of the job (`Forbidden`). -/
def errJobForbidden : GoError := ⟨"Forbidden", "forbidden"⟩

/-- Modelled from the spec: `getJob`, the read operation of the job store, which
is declared outside the embedded files.  "`get(jobId, ownerUserId) -> Job`:
returns a snapshot of the job; fails with `NotFound` if the id is unknown, fails
with `Forbidden` if `ownerUserId` does not match the job's owner." -/
def getJob (jobs : List Job) (id : String) (userId : Nat) : Except GoError Job :=
  match jobs.find? (fun j => j.id = id) with
  | none => .error errJobNotFound
  | some j => if j.ownerUserId = userId then .ok j else .error errJobForbidden

/-- `ErrorResponse`, the JSON body of a failed request. -/
structure ErrorResponse where
  Error : String
deriving DecidableEq, Repr

/-- The JSON body the job route writes: an `ErrorResponse` or a job. -/
inductive JobBody where
  | error (r : ErrorResponse)
  | job (j : Job)
deriving DecidableEq, Repr

/-- An HTTP response: status code and body. -/
structure JobResponse where
  status : Nat
  body : JobBody
deriving DecidableEq, Repr

/-- Go `http.StatusForbidden`. -/
def StatusForbidden : Nat := 403

/-- Go `http.StatusOK`. -/
def StatusOK : Nat := 200

/-- The handler of `GET /job/:id` in `addJobRoutes`: `userId` is the id the
authentication middleware put in the context, `idParam` is `c.Param("id")`, and
`getJobFn` is the job store's `getJob`. -/
def jobRoute (getJobFn : String → Nat → Except GoError Job) (userId : Nat)
    (idParam : String) : JobResponse :=
  match getJobFn idParam userId with
  | .error err => ⟨StatusForbidden, .error ⟨err.Error⟩⟩
  | .ok response => ⟨StatusOK, .job response⟩

/-- A running job, owned by user 7. -/
def runningJob : Job :=
  { id := "job-1", ownerUserId := 7, kind := "plex_sync", status := .JOB_RUNNING,
    currentTask := "importing movie B", errors := ["failed to add movie A"],
    createdAt := 1700000000 }

/-- A job store holding the running job. -/
def runningJobs : List Job := [runningJob]

/-! ## The server config (`config.go`) -/

/-- Go `SonarrSettings`, declared outside the embedded files; the config only
carries its values.  The fields are those `routes.go` reads. -/
structure SonarrSettings where
  Host : String
  Key : String
  AutomaticSearch : Bool
deriving DecidableEq, Repr

/-- Go `RadarrSettings`, declared outside the embedded files; the config only
carries its values.  The fields are those `routes.go` reads. -/
structure RadarrSettings where
  Host : String
  Key : String
  AutomaticSearch : Bool
deriving DecidableEq, Repr

/-- `ServerConfig`. -/
structure ServerConfig where
  JWT_SECRET : String
  JELLYFIN_HOST : String
  SIGNUP_ENABLED : Bool
  TMDB_KEY : String
  SONARR : List SonarrSettings
  RADARR : List RadarrSettings
  DEBUG : Bool
deriving DecidableEq, Repr

/-- The zero value of `ServerConfig` (`ServerConfig{}`). -/
def ServerConfig.zero : ServerConfig :=
  { JWT_SECRET := "", JELLYFIN_HOST := "", SIGNUP_ENABLED := false, TMDB_KEY := "",
    SONARR := [], RADARR := [], DEBUG := false }

/-- `(c *ServerConfig) GetSafe()`: the returned config and the receiver after the
call.  The fields not named in the composite literal keep their zero value. -/
def ServerConfig.GetSafe (c : ServerConfig) : ServerConfig × ServerConfig :=
  ({ ServerConfig.zero with
      SIGNUP_ENABLED := c.SIGNUP_ENABLED
      JELLYFIN_HOST := c.JELLYFIN_HOST
      TMDB_KEY := c.TMDB_KEY
      DEBUG := c.DEBUG
      SONARR := c.SONARR
      RADARR := c.RADARR }, c)

/-- The declared value of the package variable `Config`:
`ServerConfig{SIGNUP_ENABLED: true}`. -/
def defaultConfig : ServerConfig := { ServerConfig.zero with SIGNUP_ENABLED := true }

/-- The JSON object in `./data/watcharr.json`: for each key of `ServerConfig`,
its value when the key is present. -/
structure ConfigFile where
  JWT_SECRET : Option String
  JELLYFIN_HOST : Option String
  SIGNUP_ENABLED : Option Bool
  TMDB_KEY : Option String
  SONARR : Option (List SonarrSettings)
  RADARR : Option (List RadarrSettings)
  DEBUG : Option Bool
deriving DecidableEq, Repr

/-- The tag `omitempty` on a string field: the empty string is left out. -/
def omitEmptyString (s : String) : Option String := if s = "" then none else some s

/-- The tag `omitempty` on a bool field: `false` is left out. -/
def omitEmptyBool (b : Bool) : Option Bool := if b = false then none else some b

/-- The tag `omitempty` on a slice field: a slice of length zero is left out. -/
def omitEmptySlice {α : Type} (l : List α) : Option (List α) :=
  if l.length = 0 then none else some l

/-- Go `json.MarshalIndent` of a `ServerConfig`; every field carries
`json:",omitempty"`. -/
def marshalConfig (c : ServerConfig) : ConfigFile :=
  { JWT_SECRET := omitEmptyString c.JWT_SECRET
    JELLYFIN_HOST := omitEmptyString c.JELLYFIN_HOST
    SIGNUP_ENABLED := omitEmptyBool c.SIGNUP_ENABLED
    TMDB_KEY := omitEmptyString c.TMDB_KEY
    SONARR := omitEmptySlice c.SONARR
    RADARR := omitEmptySlice c.RADARR
    DEBUG := omitEmptyBool c.DEBUG }

/-- Go `json.Decoder.Decode(&Config)`: a key present in the file overwrites the
field, a key absent from the file leaves the field as it is. -/
def decodeConfig (cfg : ConfigFile) (c : ServerConfig) : ServerConfig :=
  { JWT_SECRET := cfg.JWT_SECRET.getD c.JWT_SECRET
    JELLYFIN_HOST := cfg.JELLYFIN_HOST.getD c.JELLYFIN_HOST
    SIGNUP_ENABLED := cfg.SIGNUP_ENABLED.getD c.SIGNUP_ENABLED
    TMDB_KEY := cfg.TMDB_KEY.getD c.TMDB_KEY
    SONARR := cfg.SONARR.getD c.SONARR
    RADARR := cfg.RADARR.getD c.RADARR
    DEBUG := cfg.DEBUG.getD c.DEBUG }

/-- The state `config.go` works on: the package variable `Config` and the file
`./data/watcharr.json`, when it exists. -/
structure ConfigState where
  Config : ServerConfig
  file : Option ConfigFile
deriving DecidableEq, Repr

/-- How a call ends: it returns its error value, or `log.Fatal` ends the
process. -/
inductive Outcome where
  | returned (err : Option GoError)
  | fatal
deriving DecidableEq, Repr

/-- `writeConfig`, the file write succeeding. -/
def writeConfig (s : ConfigState) : Outcome × ConfigState :=
  (.returned none, { s with file := some (marshalConfig s.Config) })

/-- `generateConfig`; `key` is the result of `generateString(64)`. -/
def generateConfig (key : Except GoError String) (s : ConfigState) : Outcome × ConfigState :=
  match key with
  | .error e => (.returned (some e), s)
  | .ok k =>
    (.returned none,
      { Config := { s.Config with JWT_SECRET := k }
        file := some (marshalConfig { ServerConfig.zero with JWT_SECRET := k }) })

/-- `readConfig` with `initFromConfig`; the file, when it exists, can be opened
and holds a JSON object.  `key` is the result of `generateString(64)`. -/
def readConfig (key : Except GoError String) (s : ConfigState) : Outcome × ConfigState :=
  match s.file with
  | none => generateConfig key s
  | some cfg =>
    if (decodeConfig cfg s.Config).JWT_SECRET = "" then
      (.fatal, { s with Config := decodeConfig cfg s.Config })
    else
      (.returned none, { s with Config := decodeConfig cfg s.Config })

/-- A fresh process that finds the file a previous process wrote: `Config` holds
its declared value. -/
def freshProcess (s : ConfigState) : ConfigState := { Config := defaultConfig, file := s.file }

/-- A config with signup switched off. -/
def signupOffConfig : ServerConfig :=
  { ServerConfig.zero with JWT_SECRET := "s3cret", SIGNUP_ENABLED := false, DEBUG := true }

/-! ## The run with checked slice expressions

Go panics on `s[n:]` when `n > len(s)`.  The definitions below are the pipeline
again, with the slice expression checked: `none` stands for a run that ends in
that panic. -/

/-- Go `len(s)` of a string: its length in bytes. -/
def len (s : String) : Nat := s.utf8ByteSize

/-- Go slice expression `s[n:]` with its bounds check: `none` when `n > len(s)`. -/
def sliceFromChecked (s : String) (n : Nat) : Option String :=
  if n ≤ len s then some (sliceFrom s n) else none

/-- The guid loop of `plexSyncWatched` with the slice expression checked. -/
def findTmdbIdStrChecked : List PlexGuid → Option String
  | [] => some ""
  | v :: rest =>
    if hasPrefix v.ID "tmdb://" then sliceFromChecked v.ID 7 else findTmdbIdStrChecked rest

/-- One iteration of `for _, movie := range movies`, with the slice expression
checked. -/
def syncMovieChecked {σ : Type} (env : Env σ) (jobId : String) (userId : Nat)
    (movie : PlexLibraryItem) (w : σ) : Option (List Event × σ) :=
  if movie.ViewCount = 0 ∧ movie.UserRating = 0 then
    some ([], w)
  else if movie.Guid.length ≤ 0 then
    some ([.updateJobCurrentTask jobId userId ("importing movie " ++ movie.Title),
      .addJobError jobId userId
        ("movie could not be imported (no external ids present): " ++ movie.Title)], w)
  else
    match findTmdbIdStrChecked movie.Guid with
    | none => none
    | some tmdbIdStr =>
      if tmdbIdStr = "" then
        some ([.updateJobCurrentTask jobId userId ("importing movie " ++ movie.Title),
          .addJobError jobId userId
            ("movie could not be imported (no tmdbId present): " ++ movie.Title)], w)
      else
        match atoi tmdbIdStr with
        | none =>
          some ([.updateJobCurrentTask jobId userId ("importing movie " ++ movie.Title),
            .addJobError jobId userId
              ("movie could not be imported (tmdbId was not parseable): " ++ movie.Title)], w)
        | some tmdbId =>
          match env.addWatched userId (movieRequest env movie tmdbId)
              env.IMPORTED_WATCHED_PLEX w with
          | (none, w1) =>
            some ([.updateJobCurrentTask jobId userId ("importing movie " ++ movie.Title),
              .addWatched userId (movieRequest env movie tmdbId) env.IMPORTED_WATCHED_PLEX], w1)
          | (some err, w1) =>
            if err.Error = "content already on watched list" then
              some ([.updateJobCurrentTask jobId userId ("importing movie " ++ movie.Title),
                .addWatched userId (movieRequest env movie tmdbId) env.IMPORTED_WATCHED_PLEX],
                w1)
            else
              some ([.updateJobCurrentTask jobId userId ("importing movie " ++ movie.Title),
                .addWatched userId (movieRequest env movie tmdbId) env.IMPORTED_WATCHED_PLEX,
                .addJobError jobId userId ("failed to add movie " ++ movie.Title)], w1)

/-- The loop `for _, movie := range movies`, with the slice expression checked. -/
def syncMoviesChecked {σ : Type} (env : Env σ) (jobId : String) (userId : Nat) :
    List PlexLibraryItem → σ → Option (List Event × σ)
  | [], w => some ([], w)
  | movie :: rest, w =>
    match syncMovieChecked env jobId userId movie w with
    | none => none
    | some (t, w1) =>
      match syncMoviesChecked env jobId userId rest w1 with
      | none => none
      | some (t2, w2) => some (t ++ t2, w2)

/-- One iteration of `for _, library := range libraries`, with the slice
expression checked. -/
def syncLibraryChecked {σ : Type} (env : Env σ) (jobId : String) (userId : Nat)
    (auth : String) (library : PlexLibrary) (w : σ) : Option (List Event × σ) :=
  if library.Type_ = env.MOVIES then
    match env.plexGetLibraryItems auth library.Key w with
    | (.error _, w1) =>
      some ([.updateJobCurrentTask jobId userId "importing movies",
        .plexGetLibraryItems auth library.Key,
        .addJobError jobId userId ("failed to fetch movies from library " ++ library.Key)], w1)
    | (.ok movies, w1) =>
      match syncMoviesChecked env jobId userId movies w1 with
      | none => none
      | some (t, w2) =>
        some ([.updateJobCurrentTask jobId userId "importing movies",
          .plexGetLibraryItems auth library.Key] ++ t, w2)
  else if library.Type_ = env.TV_SHOWS then
    some ([], w)
  else
    some ([], w)

/-- The loop `for _, library := range libraries`, with the slice expression
checked. -/
def syncLibrariesChecked {σ : Type} (env : Env σ) (jobId : String) (userId : Nat)
    (auth : String) : List PlexLibrary → σ → Option (List Event × σ)
  | [], w => some ([], w)
  | library :: rest, w =>
    match syncLibraryChecked env jobId userId auth library w with
    | none => none
    | some (t, w1) =>
      match syncLibrariesChecked env jobId userId auth rest w1 with
      | none => none
      | some (t2, w2) => some (t ++ t2, w2)

/-- `plexSyncWatched` with the slice expression checked: `none` when the run
panics, else its events and the world it leaves. -/
def plexSyncWatchedChecked {σ : Type} (env : Env σ) (jobId : String) (userId : Nat)
    (userThirdPartyAuth : String) (w : σ) : Option (List Event × σ) :=
  match env.plexGetLibraries userThirdPartyAuth w with
  | (.error _, w1) =>
    some ([.updateJobCurrentTask jobId userId "fetching libraries",
      .plexGetLibraries userThirdPartyAuth,
      .addJobError jobId userId "failed to get plex libraries",
      .updateJobStatus jobId userId .JOB_DONE], w1)
  | (.ok libraries, w1) =>
    match syncLibrariesChecked env jobId userId userThirdPartyAuth libraries w1 with
    | none => none
    | some (t, w2) =>
      some ([.updateJobCurrentTask jobId userId "fetching libraries",
        .plexGetLibraries userThirdPartyAuth] ++ t ++
          [.updateJobStatus jobId userId .JOB_DONE], w2)

/-- Item E: watched, with Guid IDs that are empty or shorter than the prefix. -/
def itemE : PlexLibraryItem :=
  { Title := "E", ViewCount := 2, UserRating := 0, LastViewedAt := 1700001000,
    Guid := [⟨""⟩, ⟨"tmdb"⟩, ⟨"tmdb:/"⟩, ⟨"tmdb://"⟩, ⟨"tmdb://27205"⟩] }

/-- A catalog whose movies library holds short and empty Guid IDs. -/
def shortGuidEnv : Env Store :=
  storeEnv (.ok "job-1") (.ok [⟨"1", "movie"⟩, ⟨"9", "show"⟩])
    (fun _ => .ok [itemA, itemE, itemB]) []

/-! # Theorems -/

/-! ## Observations distribute over concatenation -/

theorem statusWrites_append (a b : List Event) :
    statusWrites (a ++ b) = statusWrites a ++ statusWrites b := by
  induction a with
  | nil => rfl
  | cons e a ih => cases e <;> simp [statusWrites, ih]

theorem jobErrors_append (a b : List Event) :
    jobErrors (a ++ b) = jobErrors a ++ jobErrors b := by
  induction a with
  | nil => rfl
  | cons e a ih => cases e <;> simp [jobErrors, ih]

theorem taskWrites_append (a b : List Event) :
    taskWrites (a ++ b) = taskWrites a ++ taskWrites b := by
  induction a with
  | nil => rfl
  | cons e a ih => cases e <;> simp [taskWrites, ih]

theorem importerCalls_append (a b : List Event) :
    importerCalls (a ++ b) = importerCalls a ++ importerCalls b := by
  induction a with
  | nil => rfl
  | cons e a ih => cases e <;> simp [importerCalls, ih]

theorem itemFetches_append (a b : List Event) :
    itemFetches (a ++ b) = itemFetches a ++ itemFetches b := by
  induction a with
  | nil => rfl
  | cons e a ih => cases e <;> simp [itemFetches, ih]

theorem jobOps_append (a b : List Event) :
    jobOps (a ++ b) = jobOps a ++ jobOps b := by
  induction a with
  | nil => rfl
  | cons e a ih => cases e <;> simp [jobOps, ih]

/-! ## The tmdb id of an item -/

theorem atoi_empty : atoi "" = none := rfl

theorem findTmdbIdStr_eq_find (guids : List PlexGuid) :
    findTmdbIdStr guids =
      match guids.find? (fun g => hasPrefix g.ID "tmdb://") with
      | none => ""
      | some g => sliceFrom g.ID 7 := by
  induction guids with
  | nil => rfl
  | cons g rest ih =>
    by_cases h : hasPrefix g.ID "tmdb://" = true
    · simp [findTmdbIdStr, List.find?_cons, h]
    · simp [findTmdbIdStr, List.find?_cons, h, ih]

theorem atoi_findTmdbIdStr (movie : PlexLibraryItem) :
    atoi (findTmdbIdStr movie.Guid) = usableTmdbId movie := by
  rw [findTmdbIdStr_eq_find, usableTmdbId, firstTmdbGuid]
  cases movie.Guid.find? (fun g => hasPrefix g.ID "tmdb://") with
  | none => exact atoi_empty
  | some g => rfl

theorem title_occurs (pre title : String) : title.data <:+: (pre ++ title).data := by
  rw [String.data_append]
  exact (List.suffix_append _ _).isInfix

/-! ## The three ways an item is handled -/

theorem syncMovie_untouched {σ : Type} (env : Env σ) (jobId : String) (userId : Nat)
    (movie : PlexLibraryItem) (w : σ) (h : movie.ViewCount = 0 ∧ movie.UserRating = 0) :
    syncMovie env jobId userId movie w = ([], w) := by
  simp [syncMovie, h]

theorem syncMovie_noId {σ : Type} (env : Env σ) (jobId : String) (userId : Nat)
    (movie : PlexLibraryItem) (w : σ) (ht : ¬(movie.ViewCount = 0 ∧ movie.UserRating = 0))
    (hn : usableTmdbId movie = none) :
    ∃ msg : String,
      syncMovie env jobId userId movie w =
        ([.updateJobCurrentTask jobId userId ("importing movie " ++ movie.Title),
          .addJobError jobId userId msg], w) ∧
      movie.Title.data <:+: msg.data := by
  rw [← atoi_findTmdbIdStr] at hn
  unfold syncMovie
  rw [if_neg ht]
  split_ifs
  · exact ⟨_, rfl, title_occurs _ _⟩
  · exact ⟨_, rfl, title_occurs _ _⟩
  · rw [hn]
    exact ⟨_, rfl, title_occurs _ _⟩

theorem syncMovie_import {σ : Type} (env : Env σ) (jobId : String) (userId : Nat)
    (movie : PlexLibraryItem) (w : σ) (n : Int)
    (ht : ¬(movie.ViewCount = 0 ∧ movie.UserRating = 0))
    (hn : usableTmdbId movie = some n) :
    syncMovie env jobId userId movie w =
      match env.addWatched userId (movieRequest env movie n) env.IMPORTED_WATCHED_PLEX w with
      | (none, w1) =>
        ([.updateJobCurrentTask jobId userId ("importing movie " ++ movie.Title),
          .addWatched userId (movieRequest env movie n) env.IMPORTED_WATCHED_PLEX], w1)
      | (some err, w1) =>
        if err.Error = "content already on watched list" then
          ([.updateJobCurrentTask jobId userId ("importing movie " ++ movie.Title),
            .addWatched userId (movieRequest env movie n) env.IMPORTED_WATCHED_PLEX], w1)
        else
          ([.updateJobCurrentTask jobId userId ("importing movie " ++ movie.Title),
            .addWatched userId (movieRequest env movie n) env.IMPORTED_WATCHED_PLEX,
            .addJobError jobId userId ("failed to add movie " ++ movie.Title)], w1) := by
  rw [← atoi_findTmdbIdStr] at hn
  have hg : ¬ movie.Guid.length ≤ 0 := by
    intro hg
    have : movie.Guid = [] := List.length_eq_zero.mp (Nat.le_zero.mp hg)
    rw [this] at hn
    simp [findTmdbIdStr, atoi_empty] at hn
  have hs : ¬ findTmdbIdStr movie.Guid = "" := by
    intro hs
    rw [hs, atoi_empty] at hn
    cases hn
  unfold syncMovie
  rw [if_neg ht, if_neg hg, if_neg hs, hn]

theorem touched_iff (movie : PlexLibraryItem) :
    touched movie = true ↔ ¬(movie.ViewCount = 0 ∧ movie.UserRating = 0) := by
  simp only [touched, Bool.not_eq_true', Bool.and_eq_false_iff, decide_eq_false_iff_not]
  tauto

/-! ## The loops write no status -/

theorem statusWrites_syncMovie {σ : Type} (env : Env σ) (jobId : String) (userId : Nat)
    (movie : PlexLibraryItem) (w : σ) :
    statusWrites (syncMovie env jobId userId movie w).1 = [] := by
  unfold syncMovie
  split_ifs
  · rfl
  · rfl
  · rfl
  · split
    · rfl
    · split
      · rfl
      · split_ifs <;> rfl

theorem statusWrites_syncMovies {σ : Type} (env : Env σ) (jobId : String) (userId : Nat)
    (movies : List PlexLibraryItem) (w : σ) :
    statusWrites (syncMovies env jobId userId movies w).1 = [] := by
  induction movies generalizing w with
  | nil => rfl
  | cons m rest ih =>
    simp [syncMovies, statusWrites_append, statusWrites_syncMovie, ih]

theorem statusWrites_syncLibrary {σ : Type} (env : Env σ) (jobId : String) (userId : Nat)
    (auth : String) (library : PlexLibrary) (w : σ) :
    statusWrites (syncLibrary env jobId userId auth library w).1 = [] := by
  unfold syncLibrary
  split_ifs
  · split
    · rfl
    · simp [statusWrites, statusWrites_syncMovies]
  · rfl
  · rfl

theorem statusWrites_syncLibraries {σ : Type} (env : Env σ) (jobId : String) (userId : Nat)
    (auth : String) (libraries : List PlexLibrary) (w : σ) :
    statusWrites (syncLibraries env jobId userId auth libraries w).1 = [] := by
  induction libraries generalizing w with
  | nil => rfl
  | cons l rest ih =>
    simp [syncLibraries, statusWrites_append, statusWrites_syncLibrary, ih]

/-! ## C1 -/

theorem statusWrites_plexSyncWatched {σ : Type} (env : Env σ) (jobId : String)
    (userId : Nat) (auth : String) (w : σ) :
    statusWrites (plexSyncWatched env jobId userId auth w).1 = [JobStatus.JOB_DONE] := by
  unfold plexSyncWatched
  split
  · rfl
  · simp [statusWrites, statusWrites_append, statusWrites_syncLibraries]

/-- C1: whatever the collaborators answer, `plexSyncWatched` writes the job status
exactly once, the value written is `JOB_DONE`, and that write is the last event
of the run, so no current-task update and no error append follows it. -/
theorem plexSyncWatched_status_done_once_last {σ : Type} (env : Env σ) (jobId : String)
    (userId : Nat) (auth : String) (w : σ) :
    statusWrites (plexSyncWatched env jobId userId auth w).1 = [JobStatus.JOB_DONE] ∧
    ∃ pre : List Event,
      (plexSyncWatched env jobId userId auth w).1 =
        pre ++ [Event.updateJobStatus jobId userId JobStatus.JOB_DONE] ∧
      statusWrites pre = [] := by
  refine ⟨statusWrites_plexSyncWatched env jobId userId auth w, ?_⟩
  unfold plexSyncWatched
  split
  · exact ⟨[.updateJobCurrentTask jobId userId "fetching libraries",
      .plexGetLibraries auth, .addJobError jobId userId "failed to get plex libraries"],
      rfl, rfl⟩
  · refine ⟨_, rfl, ?_⟩
    simp [statusWrites, statusWrites_append, statusWrites_syncLibraries]

/-! ## C2 -/

theorem forall₂_append {α β : Type} {R : α → β → Prop} {a₁ a₂ : List α} {b₁ b₂ : List β}
    (h₁ : List.Forall₂ R a₁ b₁) (h₂ : List.Forall₂ R a₂ b₂) :
    List.Forall₂ R (a₁ ++ a₂) (b₁ ++ b₂) := by
  induction h₁ with
  | nil => exact h₂
  | cons h _ ih => exact List.Forall₂.cons h ih

theorem referenceItem_describes {σ : Type} (env : Env σ) (jobId : String) (userId : Nat)
    (movie : PlexLibraryItem) (w : σ) :
    List.Forall₂ ErrorRef.describes (referenceItem env userId movie w).1
        (jobErrors (syncMovie env jobId userId movie w).1) ∧
      (referenceItem env userId movie w).2 = (syncMovie env jobId userId movie w).2 := by
  by_cases ht : movie.ViewCount = 0 ∧ movie.UserRating = 0
  · have hf : touched movie = false := by
      cases htt : touched movie with
      | false => rfl
      | true => exact absurd ht ((touched_iff movie).mp htt)
    rw [syncMovie_untouched env jobId userId movie w ht]
    simp [referenceItem, hf, jobErrors]
  · have htt : touched movie = true := (touched_iff movie).mpr ht
    cases hn : usableTmdbId movie with
    | none =>
      obtain ⟨msg, he, hi⟩ := syncMovie_noId env jobId userId movie w ht hn
      rw [he]
      simp [referenceItem, htt, hn, jobErrors, ErrorRef.describes, hi]
    | some n =>
      rw [syncMovie_import env jobId userId movie w n ht hn]
      simp only [referenceItem, htt, hn, if_true]
      rcases env.addWatched userId (movieRequest env movie n) env.IMPORTED_WATCHED_PLEX w
        with ⟨_ | err, w1⟩
      · simp [jobErrors]
      · by_cases hd : err.Error = "content already on watched list"
        · simp [hd, jobErrors]
        · simp only [hd, if_false, jobErrors]
          exact ⟨List.Forall₂.cons (title_occurs "failed to add movie " movie.Title)
            List.Forall₂.nil, trivial⟩

theorem referenceItems_describes {σ : Type} (env : Env σ) (jobId : String) (userId : Nat)
    (movies : List PlexLibraryItem) (w : σ) :
    List.Forall₂ ErrorRef.describes (referenceItems env userId movies w).1
        (jobErrors (syncMovies env jobId userId movies w).1) ∧
      (referenceItems env userId movies w).2 = (syncMovies env jobId userId movies w).2 := by
  induction movies generalizing w with
  | nil => exact ⟨List.Forall₂.nil, rfl⟩
  | cons m rest ih =>
    obtain ⟨h1, h2⟩ := referenceItem_describes env jobId userId m w
    simp only [referenceItems, syncMovies, jobErrors_append]
    rw [h2]
    exact ⟨forall₂_append h1 (ih _).1, (ih _).2⟩

theorem referenceLibraries_describes {σ : Type} (env : Env σ) (jobId : String) (userId : Nat)
    (auth : String) (libraries : List PlexLibrary) (w : σ) :
    List.Forall₂ ErrorRef.describes (referenceLibraries env userId auth libraries w).1
        (jobErrors (syncLibraries env jobId userId auth libraries w).1) := by
  induction libraries generalizing w with
  | nil => exact List.Forall₂.nil
  | cons l rest ih =>
    simp only [referenceLibraries, syncLibraries, syncLibrary, jobErrors_append]
    by_cases hm : l.Type_ = env.MOVIES
    · simp only [hm, if_true]
      rcases env.plexGetLibraryItems auth l.Key w with ⟨_ | movies, w1⟩
      · simp only [jobErrors, List.cons_append, List.nil_append]
        exact List.Forall₂.cons rfl (ih _)
      · obtain ⟨h1, h2⟩ := referenceItems_describes env jobId userId movies w1
        simp only [jobErrors, jobErrors_append]
        rw [h2]
        exact forall₂_append h1 (ih _)
    · simp only [hm, if_false]
      by_cases htv : l.Type_ = env.TV_SHOWS
      · simpa [htv, jobErrors] using ih w
      · simpa [htv, jobErrors] using ih w

/-- C2: when the library fetch succeeds, the errors a run appends to the job are,
entry by entry and in order, the reference list: per movies library in catalog
order the fetch-failure message with its key, or per item one text naming the
title when the item is touched and has no usable tmdb id or fails to import with
an error other than the duplicate one. -/
theorem plexSyncWatched_errors_reference {σ : Type} (env : Env σ) (jobId : String)
    (userId : Nat) (auth : String) (w : σ) (libraries : List PlexLibrary) (w1 : σ)
    (h : env.plexGetLibraries auth w = (.ok libraries, w1)) :
    List.Forall₂ ErrorRef.describes (referenceLibraries env userId auth libraries w1).1
      (jobErrors (plexSyncWatched env jobId userId auth w).1) := by
  have ht : jobErrors (plexSyncWatched env jobId userId auth w).1 =
      jobErrors (syncLibraries env jobId userId auth libraries w1).1 := by
    unfold plexSyncWatched
    rw [h]
    simp [jobErrors_append, jobErrors]
  rw [ht]
  exact referenceLibraries_describes env jobId userId auth libraries w1

/-- Witness for C2: the catalog with A untouched, B valid and C without Guid
leaves exactly one error, naming C, and one importer call, for B. -/
theorem plexSyncWatched_errors_reference_witness :
    abcEnv.plexGetLibraries "tok" [] = (.ok [⟨"1", "movie"⟩], []) ∧
    List.Forall₂ ErrorRef.describes
      (referenceLibraries abcEnv 7 "tok" [⟨"1", "movie"⟩] []).1
      (jobErrors (plexSyncWatched abcEnv "job-1" 7 "tok" []).1) ∧
    (referenceLibraries abcEnv 7 "tok" [⟨"1", "movie"⟩] []).1 = [ErrorRef.item "C"] ∧
    jobErrors (plexSyncWatched abcEnv "job-1" 7 "tok" []).1 =
      ["movie could not be imported (no external ids present): C"] ∧
    importerCalls (plexSyncWatched abcEnv "job-1" 7 "tok" []).1 =
      [(7, movieRequest abcEnv itemB 603, "IMPORTED_WATCHED_PLEX")] :=
  ⟨rfl, plexSyncWatched_errors_reference abcEnv "job-1" 7 "tok" [] _ _ rfl,
    by decide, by decide, by decide⟩

/-! ## C3 -/

/-- C3: when `plexGetLibraries` returns an error, the run is the task update, the
failed fetch, one error append and the status write `JOB_DONE`: exactly one error
entry, no library items fetched, no importer call. -/
theorem plexSyncWatched_libraries_error {σ : Type} (env : Env σ) (jobId : String)
    (userId : Nat) (auth : String) (w : σ) (e : GoError)
    (h : (env.plexGetLibraries auth w).1 = .error e) :
    (plexSyncWatched env jobId userId auth w).1 =
      [Event.updateJobCurrentTask jobId userId "fetching libraries",
        Event.plexGetLibraries auth,
        Event.addJobError jobId userId "failed to get plex libraries",
        Event.updateJobStatus jobId userId JobStatus.JOB_DONE] ∧
    (jobErrors (plexSyncWatched env jobId userId auth w).1).length = 1 ∧
    statusWrites (plexSyncWatched env jobId userId auth w).1 = [JobStatus.JOB_DONE] ∧
    itemFetches (plexSyncWatched env jobId userId auth w).1 = [] ∧
    importerCalls (plexSyncWatched env jobId userId auth w).1 = [] := by
  have ht : (plexSyncWatched env jobId userId auth w).1 =
      [Event.updateJobCurrentTask jobId userId "fetching libraries",
        Event.plexGetLibraries auth,
        Event.addJobError jobId userId "failed to get plex libraries",
        Event.updateJobStatus jobId userId JobStatus.JOB_DONE] := by
    unfold plexSyncWatched
    rcases hr : env.plexGetLibraries auth w with ⟨_ | libs, w1⟩
    · rfl
    · rw [hr] at h
      cases h
  rw [ht]
  exact ⟨rfl, rfl, rfl, rfl, rfl⟩

/-- Witness for C3: a run against a catalog that cannot be reached. -/
theorem plexSyncWatched_libraries_error_witness :
    (downEnv.plexGetLibraries "tok" []).1 = .error (errorsNew "connection refused") ∧
    (jobErrors (plexSyncWatched downEnv "job-1" 7 "tok" []).1).length = 1 ∧
    importerCalls (plexSyncWatched downEnv "job-1" 7 "tok" []).1 = [] ∧
    (plexSyncWatched downEnv "job-1" 7 "tok" []).2 = [] :=
  ⟨rfl, (plexSyncWatched_libraries_error downEnv "job-1" 7 "tok" [] _ rfl).2.1,
    (plexSyncWatched_libraries_error downEnv "job-1" 7 "tok" [] _ rfl).2.2.2.2, by decide⟩

/-! ## C4 -/

theorem statusWrites_launchedRun {σ : Type} (env : Env σ) (userId : Nat) (auth : String)
    (w wp : σ) :
    statusWrites (launchedRun env userId auth w wp) =
      match (env.addJob "plex_sync" userId w).1 with
      | .error _ => []
      | .ok _ => [JobStatus.JOB_RUNNING, JobStatus.JOB_DONE] := by
  unfold launchedRun startPlexSync
  rcases env.addJob "plex_sync" userId w with ⟨_ | jobId, w1⟩
  · rfl
  · simp [spawnedEvents, statusWrites, statusWrites_append, statusWrites_plexSyncWatched]

/-- C4: in a run launched through `startPlexSync`, the statuses written after the
job's creation as `PENDING`, by the facade and then by its pipeline, are strictly
increasing in the order `PENDING < RUNNING < DONE`: the writes are none at all
(no job was created) or `RUNNING` followed by `DONE`. -/
theorem launchedRun_status_strictly_increasing {σ : Type} (env : Env σ) (userId : Nat)
    (auth : String) (w wp : σ) :
    (statusWrites (launchedRun env userId auth w wp) = [] ∨
      statusWrites (launchedRun env userId auth w wp) =
        [JobStatus.JOB_RUNNING, JobStatus.JOB_DONE]) ∧
    List.Pairwise (fun a b => JobStatus.rank a < JobStatus.rank b)
      (JobStatus.JOB_PENDING :: statusWrites (launchedRun env userId auth w wp)) := by
  rw [statusWrites_launchedRun]
  cases (env.addJob "plex_sync" userId w).1 with
  | error e => exact ⟨Or.inl rfl, by simp⟩
  | ok jobId => exact ⟨Or.inr rfl, by simp [JobStatus.rank]⟩

/-! ## C10 -/

/-- C10: `startPlexSync` returns a job id exactly when `addJob` succeeds.  When
`addJob` fails it returns the error "failed to create job" with an empty
response, writes no status and starts no goroutine; when `addJob` returns `id`
it returns no error, `JobId = id`, and starts exactly one goroutine, which runs
`plexSyncWatched` for `id` and the caller's `userId`. -/
theorem startPlexSync_result {σ : Type} (env : Env σ) (userId : Nat) (auth : String)
    (w wp : σ) :
    ((startPlexSync env userId auth w).err = none ↔
      ∃ id, (env.addJob "plex_sync" userId w).1 = .ok id) ∧
    (∀ e, (env.addJob "plex_sync" userId w).1 = .error e →
      (startPlexSync env userId auth w).err = some (errorsNew "failed to create job") ∧
      (startPlexSync env userId auth w).resp = ⟨""⟩ ∧
      statusWrites (startPlexSync env userId auth w).trace = [] ∧
      spawns (startPlexSync env userId auth w).trace = []) ∧
    (∀ id, (env.addJob "plex_sync" userId w).1 = .ok id →
      (startPlexSync env userId auth w).err = none ∧
      (startPlexSync env userId auth w).resp.JobId = id ∧
      spawns (startPlexSync env userId auth w).trace = [(id, userId, auth)] ∧
      spawnedEvents env wp (startPlexSync env userId auth w).trace =
        (plexSyncWatched env id userId auth wp).1) := by
  unfold startPlexSync
  rcases env.addJob "plex_sync" userId w with ⟨e | jobId, w1⟩
  · refine ⟨by simp, fun e h => ⟨rfl, rfl, rfl, rfl⟩, fun id h => by simp at h⟩
  · refine ⟨by simp, fun e h => by simp at h, fun id h => ?_⟩
    simp only [Except.ok.injEq] at h
    subst h
    exact ⟨rfl, rfl, rfl, by simp [spawnedEvents]⟩

/-- Witness for C10: a launch whose job is created, and one whose job creation
fails. -/
theorem startPlexSync_result_witness :
    ((startPlexSync abcEnv 7 "tok" []).err = none ∧
      (startPlexSync abcEnv 7 "tok" []).resp.JobId = "job-1" ∧
      spawns (startPlexSync abcEnv 7 "tok" []).trace = [("job-1", 7, "tok")] ∧
      spawnedEvents abcEnv [] (startPlexSync abcEnv 7 "tok" []).trace =
        (plexSyncWatched abcEnv "job-1" 7 "tok" []).1) ∧
    ((startPlexSync noJobEnv 7 "tok" []).err = some (errorsNew "failed to create job") ∧
      (startPlexSync noJobEnv 7 "tok" []).resp = ⟨""⟩ ∧
      statusWrites (startPlexSync noJobEnv 7 "tok" []).trace = [] ∧
      spawns (startPlexSync noJobEnv 7 "tok" []).trace = []) :=
  ⟨(startPlexSync_result abcEnv 7 "tok" [] []).2.2 "job-1" rfl,
    (startPlexSync_result noJobEnv 7 "tok" [] []).2.1 (errorsNew "out of entropy") rfl⟩

/-! ## The loops over a concatenation -/

theorem syncMovies_append {σ : Type} (env : Env σ) (jobId : String) (userId : Nat)
    (a b : List PlexLibraryItem) (w : σ) :
    syncMovies env jobId userId (a ++ b) w =
      ((syncMovies env jobId userId a w).1 ++
          (syncMovies env jobId userId b (syncMovies env jobId userId a w).2).1,
        (syncMovies env jobId userId b (syncMovies env jobId userId a w).2).2) := by
  induction a generalizing w with
  | nil => rfl
  | cons m rest ih => simp [syncMovies, ih]

theorem syncLibraries_append {σ : Type} (env : Env σ) (jobId : String) (userId : Nat)
    (auth : String) (a b : List PlexLibrary) (w : σ) :
    syncLibraries env jobId userId auth (a ++ b) w =
      ((syncLibraries env jobId userId auth a w).1 ++
          (syncLibraries env jobId userId auth b (syncLibraries env jobId userId auth a w).2).1,
        (syncLibraries env jobId userId auth b
          (syncLibraries env jobId userId auth a w).2).2) := by
  induction a generalizing w with
  | nil => rfl
  | cons l rest ih => simp [syncLibraries, ih]

/-! ## C5 -/

/-- C5: for a touched item whose tmdb id was extracted and whose import fails
with `err`, the pipeline appends no error when `err` is the duplicate condition
("content already on watched list") and otherwise exactly one, naming the item's
title; in both cases the loop goes on with the next item, from the world the
importer left. -/
theorem syncMovie_import_failure {σ : Type} (env : Env σ) (jobId : String) (userId : Nat)
    (movie : PlexLibraryItem) (rest : List PlexLibraryItem) (w : σ) (n : Int)
    (err : GoError) (w1 : σ)
    (ht : touched movie = true) (hn : usableTmdbId movie = some n)
    (hf : env.addWatched userId (movieRequest env movie n) env.IMPORTED_WATCHED_PLEX w =
      (some err, w1)) :
    (jobErrors (syncMovie env jobId userId movie w).1 =
      if err.Error = "content already on watched list" then []
      else ["failed to add movie " ++ movie.Title]) ∧
    ((jobErrors (syncMovie env jobId userId movie w).1).length = 1 ↔
      err.Error ≠ "content already on watched list") ∧
    (∀ msg ∈ jobErrors (syncMovie env jobId userId movie w).1,
      movie.Title.data <:+: msg.data) ∧
    syncMovies env jobId userId (movie :: rest) w =
      ((syncMovie env jobId userId movie w).1 ++ (syncMovies env jobId userId rest w1).1,
        (syncMovies env jobId userId rest w1).2) := by
  have hs := syncMovie_import env jobId userId movie w n ((touched_iff movie).mp ht) hn
  rw [hf] at hs
  simp only at hs
  by_cases hd : err.Error = "content already on watched list"
  · rw [if_pos hd] at hs
    refine ⟨by rw [hs, if_pos hd]; rfl, ?_, ?_, by rw [syncMovies, hs]⟩
    · rw [hs]
      simp [jobErrors, hd]
    · rw [hs]
      intro msg hmem
      simp [jobErrors] at hmem
  · rw [if_neg hd] at hs
    refine ⟨by rw [hs, if_neg hd]; rfl, ?_, ?_, by rw [syncMovies, hs]⟩
    · rw [hs]
      simp [jobErrors, hd]
    · rw [hs]
      intro msg hmem
      simp only [jobErrors, List.mem_singleton] at hmem
      rw [hmem]
      exact title_occurs _ _

/-- Witness for C5: the store cannot save B; one error naming B is appended and
the loop goes on with C. -/
theorem syncMovie_import_failure_witness :
    touched itemB = true ∧ usableTmdbId itemB = some 603 ∧
    jobErrors (syncMovie brokenEnv "job-1" 7 itemB []).1 = ["failed to add movie B"] ∧
    syncMovies brokenEnv "job-1" 7 [itemB, itemC] [] =
      ((syncMovie brokenEnv "job-1" 7 itemB []).1 ++
          (syncMovies brokenEnv "job-1" 7 [itemC] []).1,
        (syncMovies brokenEnv "job-1" 7 [itemC] []).2) :=
  ⟨by decide, by decide,
    (syncMovie_import_failure brokenEnv "job-1" 7 itemB [itemC] [] 603
      (errorsNew "database is locked") [] (by decide) (by decide) (by decide)).1,
    (syncMovie_import_failure brokenEnv "job-1" 7 itemB [itemC] [] 603
      (errorsNew "database is locked") [] (by decide) (by decide) (by decide)).2.2.2⟩

/-! ## C6 -/

theorem usableTmdbId_none_of {movie : PlexLibraryItem}
    (h : movie.Guid = [] ∨
      (∀ g ∈ movie.Guid, hasPrefix g.ID "tmdb://" = false) ∨
      (∃ g, firstTmdbGuid movie = some g ∧ atoi (sliceFrom g.ID 7) = none)) :
    usableTmdbId movie = none := by
  rcases h with h | h | ⟨g, hg, ha⟩
  · simp [usableTmdbId, firstTmdbGuid, h]
  · have hfind : firstTmdbGuid movie = none := by
      unfold firstTmdbGuid
      rw [List.find?_eq_none]
      intro g hg
      simp [h g hg]
    simp [usableTmdbId, hfind]
  · simp [usableTmdbId, hg, ha]

/-- C6: for a touched item whose Guid list is empty, or has no Guid ID starting
with `tmdb://`, or whose first such Guid has a text after the prefix that does
not parse as an integer, the pipeline updates the current task and appends
exactly one error, whose text contains the item's title; it does not call
`addWatched`, leaves the world as it was, and goes on with the next item. -/
theorem syncMovie_no_tmdb_id {σ : Type} (env : Env σ) (jobId : String) (userId : Nat)
    (movie : PlexLibraryItem) (rest : List PlexLibraryItem) (w : σ)
    (ht : touched movie = true)
    (h : movie.Guid = [] ∨
      (∀ g ∈ movie.Guid, hasPrefix g.ID "tmdb://" = false) ∨
      (∃ g, firstTmdbGuid movie = some g ∧ atoi (sliceFrom g.ID 7) = none)) :
    ∃ msg : String,
      jobErrors (syncMovie env jobId userId movie w).1 = [msg] ∧
      movie.Title.data <:+: msg.data ∧
      importerCalls (syncMovie env jobId userId movie w).1 = [] ∧
      (syncMovie env jobId userId movie w).2 = w ∧
      syncMovies env jobId userId (movie :: rest) w =
        ([Event.updateJobCurrentTask jobId userId ("importing movie " ++ movie.Title),
            Event.addJobError jobId userId msg] ++ (syncMovies env jobId userId rest w).1,
          (syncMovies env jobId userId rest w).2) := by
  obtain ⟨msg, he, hi⟩ := syncMovie_noId env jobId userId movie w
    ((touched_iff movie).mp ht) (usableTmdbId_none_of h)
  refine ⟨msg, ?_, hi, ?_, ?_, ?_⟩
  · rw [he]; rfl
  · rw [he]; rfl
  · rw [he]
  · rw [syncMovies, he]

/-- Witness for C6: D is rated and its first tmdb Guid reads `6o3`; a later,
well-formed tmdb Guid does not rescue it. -/
theorem syncMovie_no_tmdb_id_witness :
    touched itemD = true ∧
    firstTmdbGuid itemD = some ⟨"tmdb://6o3"⟩ ∧ atoi (sliceFrom "tmdb://6o3" 7) = none ∧
    jobErrors (syncMovie abcEnv "job-1" 7 itemD []).1 =
      ["movie could not be imported (tmdbId was not parseable): D"] ∧
    ∃ msg : String,
      jobErrors (syncMovie abcEnv "job-1" 7 itemD []).1 = [msg] ∧
      itemD.Title.data <:+: msg.data ∧
      importerCalls (syncMovie abcEnv "job-1" 7 itemD []).1 = [] ∧
      (syncMovie abcEnv "job-1" 7 itemD []).2 = [] ∧
      syncMovies abcEnv "job-1" 7 [itemD, itemB] [] =
        ([Event.updateJobCurrentTask "job-1" 7 ("importing movie " ++ itemD.Title),
            Event.addJobError "job-1" 7 msg] ++ (syncMovies abcEnv "job-1" 7 [itemB] []).1,
          (syncMovies abcEnv "job-1" 7 [itemB] []).2) :=
  ⟨by decide, by decide, by decide, by decide,
    syncMovie_no_tmdb_id abcEnv "job-1" 7 itemD [itemB] [] (by decide)
      (Or.inr (Or.inr ⟨⟨"tmdb://6o3"⟩, by decide, by decide⟩))⟩

/-! ## C9 -/

/-- C9: for a touched movie whose first tmdb Guid parses to the integer `n`, the
pipeline calls `addWatched` exactly once, with the run's `userId`, the request
`Status = FINISHED`, `ContentID = n`, `ContentType = MOVIE`, `Rating =
int8(UserRating)`, `WatchedDate = time.Unix(int64(LastViewedAt), 0)`, and the
provenance tag `IMPORTED_WATCHED_PLEX`. -/
theorem syncMovie_importer_call {σ : Type} (env : Env σ) (jobId : String) (userId : Nat)
    (movie : PlexLibraryItem) (w : σ) (n : Int) (g : PlexGuid)
    (ht : touched movie = true)
    (hg : firstTmdbGuid movie = some g) (hn : atoi (sliceFrom g.ID 7) = some n) :
    importerCalls (syncMovie env jobId userId movie w).1 =
      [(userId,
        { Status := env.FINISHED
          ContentID := n
          ContentType := env.MOVIE
          Rating := int8 movie.UserRating
          WatchedDate := timeUnix (int64 movie.LastViewedAt) 0 },
        env.IMPORTED_WATCHED_PLEX)] := by
  have hu : usableTmdbId movie = some n := by simp [usableTmdbId, hg, hn]
  rw [syncMovie_import env jobId userId movie w n ((touched_iff movie).mp ht) hu]
  rcases env.addWatched userId (movieRequest env movie n) env.IMPORTED_WATCHED_PLEX w
    with ⟨_ | err, w1⟩
  · rfl
  · by_cases hd : err.Error = "content already on watched list"
    · simp only [hd, if_true]; rfl
    · simp only [hd, if_false]; rfl

/-- Witness for C9: B is imported as tmdb id 603 with rating 9, watched at Unix
time 1700000000. -/
theorem syncMovie_importer_call_witness :
    touched itemB = true ∧ firstTmdbGuid itemB = some ⟨"tmdb://603"⟩ ∧
    atoi (sliceFrom "tmdb://603" 7) = some 603 ∧
    importerCalls (syncMovie abcEnv "job-1" 7 itemB []).1 =
      [(7, { Status := "FINISHED", ContentID := 603, ContentType := "MOVIE", Rating := 9,
             WatchedDate := ⟨1700000000, 0⟩ }, "IMPORTED_WATCHED_PLEX")] :=
  ⟨by decide, by decide, by decide,
    syncMovie_importer_call abcEnv "job-1" 7 itemB [] 603 ⟨"tmdb://603"⟩
      (by decide) (by decide) (by decide)⟩

/-! ## C7 -/

theorem syncMovies_erase_untouched {σ : Type} (env : Env σ) (jobId : String) (userId : Nat)
    (movie : PlexLibraryItem) (hu : movie.ViewCount = 0 ∧ movie.UserRating = 0)
    (movies : List PlexLibraryItem) (w : σ) :
    syncMovies env jobId userId (movies.erase movie) w =
      syncMovies env jobId userId movies w := by
  induction movies generalizing w with
  | nil => rfl
  | cons m rest ih =>
    by_cases hm : m = movie
    · subst hm
      simp [syncMovies, syncMovie_untouched env jobId userId m w hu]
    · have hne : (m == movie) = false := by simpa using hm
      rw [List.erase_cons, hne]
      simp [syncMovies, ih]

theorem syncMovies_withoutItem {σ : Type} (env : Env σ) (key : String)
    (movie : PlexLibraryItem) (jobId : String) (userId : Nat)
    (movies : List PlexLibraryItem) (w : σ) :
    syncMovies (env.withoutItem key movie) jobId userId movies w =
      syncMovies env jobId userId movies w := by
  induction movies generalizing w with
  | nil => rfl
  | cons m rest ih =>
    have hm : syncMovie (env.withoutItem key movie) jobId userId m w =
        syncMovie env jobId userId m w := rfl
    simp [syncMovies, hm, ih]

theorem syncLibraries_withoutItem {σ : Type} (env : Env σ) (key : String)
    (movie : PlexLibraryItem) (hu : movie.ViewCount = 0 ∧ movie.UserRating = 0)
    (jobId : String) (userId : Nat) (auth : String) (libraries : List PlexLibrary) (w : σ) :
    syncLibraries (env.withoutItem key movie) jobId userId auth libraries w =
      syncLibraries env jobId userId auth libraries w := by
  induction libraries generalizing w with
  | nil => rfl
  | cons l rest ih =>
    have hl : syncLibrary (env.withoutItem key movie) jobId userId auth l w =
        syncLibrary env jobId userId auth l w := by
      unfold syncLibrary
      have hM : (env.withoutItem key movie).MOVIES = env.MOVIES := rfl
      have hT : (env.withoutItem key movie).TV_SHOWS = env.TV_SHOWS := rfl
      rw [hM, hT]
      by_cases hm : l.Type_ = env.MOVIES
      · simp only [hm, if_true]
        by_cases hk : l.Key = key
        · have hf : (env.withoutItem key movie).plexGetLibraryItems auth l.Key w =
              match env.plexGetLibraryItems auth l.Key w with
              | (.ok movies, w1) => (.ok (movies.erase movie), w1)
              | (.error e, w1) => (.error e, w1) := by
            simp [Env.withoutItem, hk]
          rw [hf]
          rcases env.plexGetLibraryItems auth l.Key w with ⟨e | movies, w1⟩
          · rfl
          · simp only [syncMovies_withoutItem,
              syncMovies_erase_untouched env jobId userId movie hu]
        · have hf : (env.withoutItem key movie).plexGetLibraryItems auth l.Key w =
              env.plexGetLibraryItems auth l.Key w := by
            simp [Env.withoutItem, hk]
          rw [hf]
          rcases env.plexGetLibraryItems auth l.Key w with ⟨e | movies, w1⟩
          · rfl
          · simp only [syncMovies_withoutItem]
      · simp only [hm, if_false]
    simp [syncLibraries, hl, ih]

/-- C7: for an item with `ViewCount == 0` and `UserRating == 0` the pipeline does
nothing at all: its iteration has no event (no error append, no current-task
update, no `addWatched`) and leaves the world as it was; taking the item out of
a list of items, or out of the answer of a library fetch, leaves the whole run,
events and final world, unchanged. -/
theorem untouched_item_skipped {σ : Type} (env : Env σ) (jobId : String) (userId : Nat)
    (auth : String) (movie : PlexLibraryItem)
    (hu : movie.ViewCount = 0 ∧ movie.UserRating = 0) :
    (∀ w, syncMovie env jobId userId movie w = ([], w)) ∧
    (∀ (before after : List PlexLibraryItem) (w : σ),
      syncMovies env jobId userId (before ++ movie :: after) w =
        syncMovies env jobId userId (before ++ after) w) ∧
    (∀ (key : String) (w : σ),
      plexSyncWatched (env.withoutItem key movie) jobId userId auth w =
        plexSyncWatched env jobId userId auth w) := by
  refine ⟨fun w => syncMovie_untouched env jobId userId movie w hu, ?_, ?_⟩
  · intro before after w
    rw [syncMovies_append, syncMovies_append]
    simp [syncMovies, syncMovie_untouched env jobId userId movie _ hu]
  · intro key w
    unfold plexSyncWatched
    have hL : (env.withoutItem key movie).plexGetLibraries auth w =
        env.plexGetLibraries auth w := rfl
    rw [hL]
    rcases env.plexGetLibraries auth w with ⟨e | libraries, w1⟩
    · rfl
    · simp only [syncLibraries_withoutItem env key movie hu]

/-- Witness for C7: A is untouched; the run over the catalog without A is the run
over the catalog with A. -/
theorem untouched_item_skipped_witness :
    (itemA.ViewCount = 0 ∧ itemA.UserRating = 0) ∧
    syncMovie abcEnv "job-1" 7 itemA [] = ([], []) ∧
    syncMovies abcEnv "job-1" 7 ([itemB] ++ itemA :: [itemC]) [] =
      syncMovies abcEnv "job-1" 7 ([itemB] ++ [itemC]) [] ∧
    plexSyncWatched (abcEnv.withoutItem "1" itemA) "job-1" 7 "tok" [] =
      plexSyncWatched abcEnv "job-1" 7 "tok" [] :=
  ⟨by decide,
    (untouched_item_skipped abcEnv "job-1" 7 "tok" itemA (by decide)).1 [],
    (untouched_item_skipped abcEnv "job-1" 7 "tok" itemA (by decide)).2.1 [itemB] [itemC] [],
    (untouched_item_skipped abcEnv "job-1" 7 "tok" itemA (by decide)).2.2 "1" []⟩

/-! ## C8 -/

/-- C8: when the item fetch of a movies library fails, its iteration is the task
update, the failed fetch and exactly one error append whose text contains the
library's `Key`, with no importer call; the loop then processes the later
libraries from the world the failed fetch left, and when that fetch left the
world as it found it, the later libraries are processed exactly as in the run
over the catalog without the failing library. -/
theorem syncLibrary_fetch_failure {σ : Type} (env : Env σ) (jobId : String) (userId : Nat)
    (auth : String) (library : PlexLibrary) (w : σ) (e : GoError) (w1 : σ)
    (hm : library.Type_ = env.MOVIES)
    (hf : env.plexGetLibraryItems auth library.Key w = (.error e, w1)) :
    syncLibrary env jobId userId auth library w =
      ([Event.updateJobCurrentTask jobId userId "importing movies",
        Event.plexGetLibraryItems auth library.Key,
        Event.addJobError jobId userId
          ("failed to fetch movies from library " ++ library.Key)], w1) ∧
    jobErrors (syncLibrary env jobId userId auth library w).1 =
      ["failed to fetch movies from library " ++ library.Key] ∧
    library.Key.data <:+: ("failed to fetch movies from library " ++ library.Key).data ∧
    importerCalls (syncLibrary env jobId userId auth library w).1 = [] ∧
    (∀ (earlier later : List PlexLibrary) (w0 : σ),
      (syncLibraries env jobId userId auth earlier w0).2 = w →
      syncLibraries env jobId userId auth (earlier ++ library :: later) w0 =
        ((syncLibraries env jobId userId auth earlier w0).1 ++
            [Event.updateJobCurrentTask jobId userId "importing movies",
              Event.plexGetLibraryItems auth library.Key,
              Event.addJobError jobId userId
                ("failed to fetch movies from library " ++ library.Key)] ++
            (syncLibraries env jobId userId auth later w1).1,
          (syncLibraries env jobId userId auth later w1).2)) ∧
    (w1 = w → ∀ (earlier later : List PlexLibrary) (w0 : σ),
      (syncLibraries env jobId userId auth earlier w0).2 = w →
      ∃ (tail : List Event),
        (syncLibraries env jobId userId auth (earlier ++ later) w0).1 =
          (syncLibraries env jobId userId auth earlier w0).1 ++ tail ∧
        (syncLibraries env jobId userId auth (earlier ++ library :: later) w0).1 =
          (syncLibraries env jobId userId auth earlier w0).1 ++
            [Event.updateJobCurrentTask jobId userId "importing movies",
              Event.plexGetLibraryItems auth library.Key,
              Event.addJobError jobId userId
                ("failed to fetch movies from library " ++ library.Key)] ++ tail ∧
        (syncLibraries env jobId userId auth (earlier ++ library :: later) w0).2 =
          (syncLibraries env jobId userId auth (earlier ++ later) w0).2) := by
  have hs : syncLibrary env jobId userId auth library w =
      ([Event.updateJobCurrentTask jobId userId "importing movies",
        Event.plexGetLibraryItems auth library.Key,
        Event.addJobError jobId userId
          ("failed to fetch movies from library " ++ library.Key)], w1) := by
    unfold syncLibrary
    rw [if_pos hm, hf]
  have hstep : ∀ (earlier later : List PlexLibrary) (w0 : σ),
      (syncLibraries env jobId userId auth earlier w0).2 = w →
      syncLibraries env jobId userId auth (earlier ++ library :: later) w0 =
        ((syncLibraries env jobId userId auth earlier w0).1 ++
            [Event.updateJobCurrentTask jobId userId "importing movies",
              Event.plexGetLibraryItems auth library.Key,
              Event.addJobError jobId userId
                ("failed to fetch movies from library " ++ library.Key)] ++
            (syncLibraries env jobId userId auth later w1).1,
          (syncLibraries env jobId userId auth later w1).2) := by
    intro earlier later w0 hw
    rw [syncLibraries_append, hw]
    simp [syncLibraries, hs]
  refine ⟨hs, by rw [hs]; rfl, title_occurs _ _, by rw [hs]; rfl, hstep, ?_⟩
  intro hww earlier later w0 hw
  subst hww
  refine ⟨(syncLibraries env jobId userId auth later w1).1, ?_, ?_, ?_⟩
  · rw [syncLibraries_append, hw]
  · rw [hstep earlier later w0 hw]
  · rw [hstep earlier later w0 hw, syncLibraries_append, hw]

/-- Witness for C8: the items of library "2" cannot be fetched; library "1",
which follows it, is processed as in the run without library "2". -/
theorem syncLibrary_fetch_failure_witness :
    jobErrors (syncLibrary partialEnv "job-1" 7 "tok" ⟨"2", "movie"⟩ []).1 =
      ["failed to fetch movies from library 2"] ∧
    importerCalls (syncLibrary partialEnv "job-1" 7 "tok" ⟨"2", "movie"⟩ []).1 = [] ∧
    syncLibraries partialEnv "job-1" 7 "tok" ([] ++ ⟨"2", "movie"⟩ :: [⟨"1", "movie"⟩]) [] =
      ((syncLibraries partialEnv "job-1" 7 "tok" [] []).1 ++
          [Event.updateJobCurrentTask "job-1" 7 "importing movies",
            Event.plexGetLibraryItems "tok" "2",
            Event.addJobError "job-1" 7 ("failed to fetch movies from library " ++ "2")] ++
          (syncLibraries partialEnv "job-1" 7 "tok" [⟨"1", "movie"⟩] []).1,
        (syncLibraries partialEnv "job-1" 7 "tok" [⟨"1", "movie"⟩] []).2) ∧
    importerCalls (syncLibraries partialEnv "job-1" 7 "tok"
        [⟨"2", "movie"⟩, ⟨"1", "movie"⟩] []).1 =
      [(7, movieRequest partialEnv itemB 603, "IMPORTED_WATCHED_PLEX")] :=
  ⟨(syncLibrary_fetch_failure partialEnv "job-1" 7 "tok" ⟨"2", "movie"⟩ []
      (errorsNew "timeout") [] rfl rfl).2.1,
    (syncLibrary_fetch_failure partialEnv "job-1" 7 "tok" ⟨"2", "movie"⟩ []
      (errorsNew "timeout") [] rfl rfl).2.2.2.1,
    (syncLibrary_fetch_failure partialEnv "job-1" 7 "tok" ⟨"2", "movie"⟩ []
      (errorsNew "timeout") [] rfl rfl).2.2.2.2.1 [] [⟨"1", "movie"⟩] [] rfl,
    by decide⟩

/-! ## C11 -/

/-- Counterexample to C11: in the example world the facade itself writes a job
status, `JOB_RUNNING`, so the job is no longer `PENDING` when `startPlexSync`
returns; the pipeline it started writes `JOB_DONE` only. -/
theorem startPlexSync_writes_status_counterexample :
    statusWrites (startPlexSync abcEnv 7 "tok" []).trace = [JobStatus.JOB_RUNNING] ∧
    statusWrites (startPlexSync abcEnv 7 "tok" []).trace ≠ [] ∧
    statusWrites (plexSyncWatched abcEnv "job-1" 7 "tok" []).1 = [JobStatus.JOB_DONE] := by
  decide

/-- C11, amended: the transition to `RUNNING` is made by the facade.  When
`addJob` returns `id`, `startPlexSync` performs `addJob`, then the status write
`JOB_RUNNING` for `id`, then the `go` statement, in that order; and no run of
`plexSyncWatched` writes `JOB_RUNNING`. -/
theorem startPlexSync_writes_running {σ : Type} (env : Env σ) (userId : Nat) (auth : String)
    (w : σ) :
    (∀ id, (env.addJob "plex_sync" userId w).1 = .ok id →
      (startPlexSync env userId auth w).trace =
        [Event.addJob "plex_sync" userId,
          Event.updateJobStatus id userId JobStatus.JOB_RUNNING,
          Event.go id userId auth] ∧
      statusWrites (startPlexSync env userId auth w).trace = [JobStatus.JOB_RUNNING]) ∧
    (∀ (jobId : String) (wp : σ),
      JobStatus.JOB_RUNNING ∉ statusWrites (plexSyncWatched env jobId userId auth wp).1) := by
  constructor
  · unfold startPlexSync
    rcases env.addJob "plex_sync" userId w with ⟨e | jobId, w1⟩
    · intro id h
      simp at h
    · intro id h
      simp only [Except.ok.injEq] at h
      subst h
      exact ⟨rfl, rfl⟩
  · intro jobId wp
    rw [statusWrites_plexSyncWatched]
    decide

/-- Witness for C11 (amended), in the example world. -/
theorem startPlexSync_writes_running_witness :
    (abcEnv.addJob "plex_sync" 7 []).1 = .ok "job-1" ∧
    (startPlexSync abcEnv 7 "tok" []).trace =
      [Event.addJob "plex_sync" 7,
        Event.updateJobStatus "job-1" 7 JobStatus.JOB_RUNNING,
        Event.go "job-1" 7 "tok"] ∧
    JobStatus.JOB_RUNNING ∉ statusWrites (plexSyncWatched abcEnv "job-1" 7 "tok" []).1 :=
  ⟨rfl, ((startPlexSync_writes_running abcEnv 7 "tok" []).1 "job-1" rfl).1,
    (startPlexSync_writes_running abcEnv 7 "tok" []).2 "job-1" []⟩

/-! ## C12 -/

/-- Counterexample to C12: an importer error of kind `DuplicateEntry` with another
message is recorded as a job error, and an error of another kind carrying the
message "content already on watched list" is skipped; no test on the kind of the
error alone tells which errors the pipeline skips. -/
theorem duplicate_by_kind_counterexample :
    jobErrors (syncMovie (failingEnv ⟨"DuplicateEntry", "UNIQUE constraint failed"⟩)
      "job-1" 7 itemB []).1 = ["failed to add movie B"] ∧
    jobErrors (syncMovie (failingEnv ⟨"*net.OpError", "content already on watched list"⟩)
      "job-1" 7 itemB []).1 = [] ∧
    ¬ ∃ isDuplicateKind : String → Bool, ∀ err : GoError,
      (jobErrors (syncMovie (failingEnv err) "job-1" 7 itemB []).1 = [] ↔
        isDuplicateKind err.dynType = true) := by
  refine ⟨by decide, by decide, ?_⟩
  rintro ⟨isDup, h⟩
  have h1 := h ⟨"DuplicateEntry", "UNIQUE constraint failed"⟩
  have h2 := h ⟨"DuplicateEntry", "content already on watched list"⟩
  have e1 : jobErrors (syncMovie (failingEnv ⟨"DuplicateEntry", "UNIQUE constraint failed"⟩)
      "job-1" 7 itemB []).1 = ["failed to add movie B"] := by decide
  have e2 : jobErrors (syncMovie
      (failingEnv ⟨"DuplicateEntry", "content already on watched list"⟩)
      "job-1" 7 itemB []).1 = [] := by decide
  rw [e1] at h1
  rw [e2] at h2
  have hd : isDup "DuplicateEntry" = true := h2.mp rfl
  have := h1.mpr hd
  cases this

/-- C12, amended: the pipeline recognises the duplicate by the message of the
importer error.  For a touched item with a usable tmdb id whose import fails with
`err`, no job error is appended exactly when `err.Error()` is "content already on
watched list"; with any other message the error "failed to add movie "+Title is
appended.  The kind (dynamic type) of `err` plays no part. -/
theorem duplicate_by_message {σ : Type} (env : Env σ) (jobId : String) (userId : Nat)
    (movie : PlexLibraryItem) (w : σ) (n : Int) (err : GoError) (w1 : σ)
    (ht : touched movie = true) (hn : usableTmdbId movie = some n)
    (hf : env.addWatched userId (movieRequest env movie n) env.IMPORTED_WATCHED_PLEX w =
      (some err, w1)) :
    (jobErrors (syncMovie env jobId userId movie w).1 = [] ↔
      err.text = "content already on watched list") ∧
    (err.text ≠ "content already on watched list" →
      jobErrors (syncMovie env jobId userId movie w).1 =
        ["failed to add movie " ++ movie.Title]) := by
  have hs := syncMovie_import env jobId userId movie w n ((touched_iff movie).mp ht) hn
  rw [hf] at hs
  simp only at hs
  by_cases hd : err.text = "content already on watched list"
  · have hd' : err.Error = "content already on watched list" := hd
    rw [if_pos hd'] at hs
    rw [hs]
    exact ⟨⟨fun _ => hd, fun _ => rfl⟩, fun hne => absurd hd hne⟩
  · have hd' : ¬ err.Error = "content already on watched list" := hd
    rw [if_neg hd'] at hs
    rw [hs]
    refine ⟨⟨fun h => ?_, fun h => absurd h hd⟩, fun _ => rfl⟩
    simp [jobErrors] at h

/-- Witness for C12 (amended): an error of kind `DuplicateEntry` whose message is
not the expected one is recorded. -/
theorem duplicate_by_message_witness :
    touched itemB = true ∧ usableTmdbId itemB = some 603 ∧
    jobErrors (syncMovie (failingEnv ⟨"DuplicateEntry", "UNIQUE constraint failed"⟩)
      "job-1" 7 itemB []).1 = ["failed to add movie " ++ itemB.Title] :=
  ⟨by decide, by decide,
    (duplicate_by_message (failingEnv ⟨"DuplicateEntry", "UNIQUE constraint failed"⟩)
      "job-1" 7 itemB [] 603 ⟨"DuplicateEntry", "UNIQUE constraint failed"⟩ []
      (by decide) (by decide) rfl).2 (by decide)⟩

/-! ## C13 -/

/-- Counterexample to C13: B is already in the store, so its import is a
duplicate and is skipped without error, yet the pipeline has written the current
task "importing movie B" for it. -/
theorem duplicate_narrated_counterexample :
    taskWrites (syncMovie abcEnv "job-2" 7 itemB [(7, 603, "MOVIE")]).1 =
      ["importing movie B"] ∧
    jobErrors (syncMovie abcEnv "job-2" 7 itemB [(7, 603, "MOVIE")]).1 = [] ∧
    (syncMovie abcEnv "job-2" 7 itemB [(7, 603, "MOVIE")]).2 = [(7, 603, "MOVIE")] := by
  decide

/-- C13, amended: a benign skip appends no error.  An untouched item is not
narrated either: its iteration writes no current task.  A duplicate is narrated
once: the iteration of a touched item whose import fails with the duplicate
message writes the current task "importing movie "+Title and appends no error. -/
theorem benign_skip_narration {σ : Type} (env : Env σ) (jobId : String) (userId : Nat)
    (movie : PlexLibraryItem) (w : σ) :
    (movie.ViewCount = 0 ∧ movie.UserRating = 0 →
      taskWrites (syncMovie env jobId userId movie w).1 = [] ∧
      jobErrors (syncMovie env jobId userId movie w).1 = []) ∧
    (∀ (n : Int) (err : GoError) (w1 : σ),
      touched movie = true → usableTmdbId movie = some n →
      env.addWatched userId (movieRequest env movie n) env.IMPORTED_WATCHED_PLEX w =
        (some err, w1) →
      err.Error = "content already on watched list" →
      taskWrites (syncMovie env jobId userId movie w).1 =
        ["importing movie " ++ movie.Title] ∧
      jobErrors (syncMovie env jobId userId movie w).1 = []) := by
  constructor
  · intro hu
    rw [syncMovie_untouched env jobId userId movie w hu]
    exact ⟨rfl, rfl⟩
  · intro n err w1 ht hn hf hd
    have hs := syncMovie_import env jobId userId movie w n ((touched_iff movie).mp ht) hn
    rw [hf] at hs
    simp only at hs
    rw [if_pos hd] at hs
    rw [hs]
    exact ⟨rfl, rfl⟩

/-- Witness for C13 (amended): A is untouched and leaves no task; B, already in
the store, leaves the task "importing movie B" and no error. -/
theorem benign_skip_narration_witness :
    (itemA.ViewCount = 0 ∧ itemA.UserRating = 0) ∧
    (taskWrites (syncMovie abcEnv "job-2" 7 itemA [(7, 603, "MOVIE")]).1 = [] ∧
      jobErrors (syncMovie abcEnv "job-2" 7 itemA [(7, 603, "MOVIE")]).1 = []) ∧
    (taskWrites (syncMovie abcEnv "job-2" 7 itemB [(7, 603, "MOVIE")]).1 =
        ["importing movie " ++ itemB.Title] ∧
      jobErrors (syncMovie abcEnv "job-2" 7 itemB [(7, 603, "MOVIE")]).1 = []) :=
  ⟨by decide,
    (benign_skip_narration abcEnv "job-2" 7 itemA [(7, 603, "MOVIE")]).1 (by decide),
    (benign_skip_narration abcEnv "job-2" 7 itemB [(7, 603, "MOVIE")]).2 603
      (errorsNew "content already on watched list") [(7, 603, "MOVIE")]
      (by decide) (by decide) (by decide) (by decide)⟩

/-! ## C14 -/

theorem mem_foldl_insertKey_of_mem (ks : List (Nat × Int × String)) (db : Store)
    (k : Nat × Int × String) (h : k ∈ db) : k ∈ ks.foldl insertKey db := by
  induction ks generalizing db with
  | nil => exact h
  | cons a rest ih =>
    rw [List.foldl_cons]
    apply ih
    unfold insertKey
    split_ifs
    · exact h
    · exact List.mem_append_left _ h

theorem mem_foldl_insertKey_self (ks : List (Nat × Int × String)) (db : Store)
    (k : Nat × Int × String) (h : k ∈ ks) : k ∈ ks.foldl insertKey db := by
  induction ks generalizing db with
  | nil => cases h
  | cons a rest ih =>
    rw [List.foldl_cons]
    rcases List.mem_cons.mp h with rfl | h
    · apply mem_foldl_insertKey_of_mem
      unfold insertKey
      split_ifs with hk
      · exact hk
      · simp
    · exact ih _ h

theorem foldl_insertKey_of_covered (ks : List (Nat × Int × String)) (db : Store)
    (h : ∀ k ∈ ks, k ∈ db) : ks.foldl insertKey db = db := by
  induction ks with
  | nil => rfl
  | cons a rest ih =>
    have ha : a ∈ db := h a (List.mem_cons_self _ _)
    have : insertKey db a = db := by simp [insertKey, ha]
    rw [List.foldl_cons, this]
    exact ih (fun k hk => h k (List.mem_cons_of_mem _ hk))

theorem foldl_insertKey_idem (ks : List (Nat × Int × String)) (db : Store) :
    ks.foldl insertKey (ks.foldl insertKey db) = ks.foldl insertKey db :=
  foldl_insertKey_of_covered ks _ (fun k hk => mem_foldl_insertKey_self ks db k hk)

theorem store_syncMovie_world (job : Except GoError String)
    (libs : Except GoError (List PlexLibrary))
    (items : String → Except GoError (List PlexLibraryItem))
    (jobId : String) (userId : Nat) (movie : PlexLibraryItem) (db : Store) :
    (syncMovie (storeEnv job libs items []) jobId userId movie db).2 =
      match importKey userId movie with
      | none => db
      | some k => insertKey db k := by
  by_cases ht : movie.ViewCount = 0 ∧ movie.UserRating = 0
  · have hf : touched movie = false := by
      cases htt : touched movie with
      | false => rfl
      | true => exact absurd ht ((touched_iff movie).mp htt)
    rw [syncMovie_untouched _ jobId userId movie db ht]
    simp [importKey, hf]
  · have htt : touched movie = true := (touched_iff movie).mpr ht
    cases hn : usableTmdbId movie with
    | none =>
      obtain ⟨msg, he, _⟩ := syncMovie_noId (storeEnv job libs items []) jobId userId movie db ht hn
      rw [he]
      simp [importKey, htt, hn]
    | some n =>
      rw [syncMovie_import _ jobId userId movie db n ht hn]
      simp only [importKey, htt, hn, if_true, Option.map_some']
      by_cases hk : (userId, n, "MOVIE") ∈ db
      · simp [storeEnv, movieRequest, insertKey, hk, errorsNew, GoError.Error]
      · simp [storeEnv, movieRequest, insertKey, hk]

theorem store_syncMovie_errors (job : Except GoError String)
    (libs : Except GoError (List PlexLibrary))
    (items : String → Except GoError (List PlexLibraryItem))
    (jobId jobId' : String) (userId : Nat) (movie : PlexLibraryItem) (db db' : Store) :
    jobErrors (syncMovie (storeEnv job libs items []) jobId userId movie db).1 =
      jobErrors (syncMovie (storeEnv job libs items []) jobId' userId movie db').1 := by
  by_cases ht : movie.ViewCount = 0 ∧ movie.UserRating = 0
  · rw [syncMovie_untouched _ jobId userId movie db ht,
      syncMovie_untouched _ jobId' userId movie db' ht]
  · cases hn : usableTmdbId movie with
    | none =>
      rw [← atoi_findTmdbIdStr] at hn
      unfold syncMovie
      rw [if_neg ht, if_neg ht]
      split_ifs
      · rfl
      · rfl
      · rw [hn]; rfl
    | some n =>
      rw [syncMovie_import _ jobId userId movie db n ht hn,
        syncMovie_import _ jobId' userId movie db' n ht hn]
      by_cases hk : (userId, n, "MOVIE") ∈ db <;> by_cases hk' : (userId, n, "MOVIE") ∈ db' <;>
        simp [storeEnv, movieRequest, hk, hk', errorsNew, GoError.Error, jobErrors]

theorem store_syncMovies_world (job : Except GoError String)
    (libs : Except GoError (List PlexLibrary))
    (items : String → Except GoError (List PlexLibraryItem))
    (jobId : String) (userId : Nat) (movies : List PlexLibraryItem) (db : Store) :
    (syncMovies (storeEnv job libs items []) jobId userId movies db).2 =
      (movies.filterMap (importKey userId)).foldl insertKey db := by
  induction movies generalizing db with
  | nil => rfl
  | cons m rest ih =>
    simp only [syncMovies]
    rw [ih, store_syncMovie_world]
    cases hk : importKey userId m with
    | none => simp [List.filterMap_cons, hk]
    | some k => simp [List.filterMap_cons, hk]

theorem store_syncMovies_errors (job : Except GoError String)
    (libs : Except GoError (List PlexLibrary))
    (items : String → Except GoError (List PlexLibraryItem))
    (jobId jobId' : String) (userId : Nat) (movies : List PlexLibraryItem) (db db' : Store) :
    jobErrors (syncMovies (storeEnv job libs items []) jobId userId movies db).1 =
      jobErrors (syncMovies (storeEnv job libs items []) jobId' userId movies db').1 := by
  induction movies generalizing db db' with
  | nil => rfl
  | cons m rest ih =>
    simp only [syncMovies, jobErrors_append]
    rw [store_syncMovie_errors job libs items jobId jobId' userId m db db', ih]

theorem store_syncLibraries_world (job : Except GoError String)
    (libs : Except GoError (List PlexLibrary))
    (items : String → Except GoError (List PlexLibraryItem))
    (jobId : String) (userId : Nat) (auth : String) (libraries : List PlexLibrary)
    (db : Store) :
    (syncLibraries (storeEnv job libs items []) jobId userId auth libraries db).2 =
      (catalogKeys userId items libraries).foldl insertKey db := by
  induction libraries generalizing db with
  | nil => rfl
  | cons l rest ih =>
    simp only [syncLibraries, catalogKeys]
    rw [ih]
    by_cases hm : l.Type_ = "movie"
    · have hm' : l.Type_ = (storeEnv job libs items []).MOVIES := hm
      have hf : (storeEnv job libs items []).plexGetLibraryItems auth l.Key db =
          (items l.Key, db) := rfl
      simp only [syncLibrary, if_pos hm', if_pos hm, hf]
      cases items l.Key with
      | error e => rfl
      | ok movies =>
        simp only [store_syncMovies_world, List.foldl_append]
    · have hm' : ¬ l.Type_ = (storeEnv job libs items []).MOVIES := hm
      simp only [syncLibrary, if_neg hm', if_neg hm]
      split_ifs <;> rfl

theorem store_syncLibraries_errors (job : Except GoError String)
    (libs : Except GoError (List PlexLibrary))
    (items : String → Except GoError (List PlexLibraryItem))
    (jobId jobId' : String) (userId : Nat) (auth : String) (libraries : List PlexLibrary)
    (db db' : Store) :
    jobErrors (syncLibraries (storeEnv job libs items []) jobId userId auth libraries db).1 =
      jobErrors
        (syncLibraries (storeEnv job libs items []) jobId' userId auth libraries db').1 := by
  induction libraries generalizing db db' with
  | nil => rfl
  | cons l rest ih =>
    simp only [syncLibraries, jobErrors_append]
    have hl : jobErrors (syncLibrary (storeEnv job libs items []) jobId userId auth l db).1 =
        jobErrors (syncLibrary (storeEnv job libs items []) jobId' userId auth l db').1 := by
      have hf : ∀ d : Store, (storeEnv job libs items []).plexGetLibraryItems auth l.Key d =
          (items l.Key, d) := fun _ => rfl
      unfold syncLibrary
      rw [hf db, hf db']
      split_ifs
      · cases items l.Key with
        | error e => rfl
        | ok movies =>
          rw [jobErrors_append, jobErrors_append,
            store_syncMovies_errors job libs items jobId jobId' userId movies db db']
          rfl
      · rfl
      · rfl
    rw [hl, ih]

/-- C14: against a collection store that inserts a key `(user, content id,
content type)` when it is absent and otherwise reports the duplicate condition,
a second run of `plexSyncWatched` over the same catalog leaves the store as the
first run left it (zero new entries), appends the same errors as the first run
and none for an item whose key the first run put in the store, and writes the
status `JOB_DONE`. -/
theorem rerun_inserts_nothing (job : Except GoError String)
    (libs : Except GoError (List PlexLibrary))
    (items : String → Except GoError (List PlexLibraryItem))
    (jobId jobId' : String) (userId : Nat) (auth : String) (db : Store) :
    (plexSyncWatched (storeEnv job libs items []) jobId' userId auth
        (plexSyncWatched (storeEnv job libs items []) jobId userId auth db).2).2 =
      (plexSyncWatched (storeEnv job libs items []) jobId userId auth db).2 ∧
    jobErrors (plexSyncWatched (storeEnv job libs items []) jobId' userId auth
        (plexSyncWatched (storeEnv job libs items []) jobId userId auth db).2).1 =
      jobErrors (plexSyncWatched (storeEnv job libs items []) jobId userId auth db).1 ∧
    statusWrites (plexSyncWatched (storeEnv job libs items []) jobId' userId auth
        (plexSyncWatched (storeEnv job libs items []) jobId userId auth db).2).1 =
      [JobStatus.JOB_DONE] ∧
    (∀ (movie : PlexLibraryItem) (n : Int) (store : Store),
      touched movie = true → usableTmdbId movie = some n →
      (userId, n, "MOVIE") ∈ store →
      jobErrors (syncMovie (storeEnv job libs items []) jobId' userId movie store).1 = [] ∧
      (syncMovie (storeEnv job libs items []) jobId' userId movie store).2 = store) := by
  have hL : ∀ d : Store, (storeEnv job libs items []).plexGetLibraries auth d = (libs, d) :=
    fun _ => rfl
  refine ⟨?_, ?_, statusWrites_plexSyncWatched _ _ _ _ _, ?_⟩
  · unfold plexSyncWatched
    simp only [hL]
    cases libs with
    | error e => rfl
    | ok libraries =>
      simp only [store_syncLibraries_world]
      exact foldl_insertKey_idem _ _
  · unfold plexSyncWatched
    simp only [hL]
    cases libs with
    | error e => rfl
    | ok libraries =>
      rw [jobErrors_append, jobErrors_append, jobErrors_append, jobErrors_append,
        store_syncLibraries_errors job (.ok libraries) items jobId' jobId userId auth
          libraries _ db]
      rfl
  · intro movie n store ht hn hk
    have hw := store_syncMovie_world job libs items jobId' userId movie store
    have hkey : importKey userId movie = some (userId, n, "MOVIE") := by
      simp [importKey, ht, hn]
    rw [hkey] at hw
    simp only [insertKey, if_pos hk] at hw
    refine ⟨?_, hw⟩
    rw [syncMovie_import _ jobId' userId movie store n ((touched_iff movie).mp ht) hn]
    simp [storeEnv, movieRequest, hk, errorsNew, GoError.Error, jobErrors]

/-- Witness for C14: the second run over the A/B/C catalog finds B in the store,
inserts nothing and appends no error for B. -/
theorem rerun_inserts_nothing_witness :
    (plexSyncWatched abcEnv "job-1" 7 "tok" []).2 = [(7, 603, "MOVIE")] ∧
    (plexSyncWatched abcEnv "job-2" 7 "tok" (plexSyncWatched abcEnv "job-1" 7 "tok" []).2).2 =
      (plexSyncWatched abcEnv "job-1" 7 "tok" []).2 ∧
    (touched itemB = true ∧ usableTmdbId itemB = some 603 ∧
      (7, 603, "MOVIE") ∈ (plexSyncWatched abcEnv "job-1" 7 "tok" []).2) ∧
    (jobErrors (syncMovie abcEnv "job-2" 7 itemB [(7, 603, "MOVIE")]).1 = [] ∧
      (syncMovie abcEnv "job-2" 7 itemB [(7, 603, "MOVIE")]).2 = [(7, 603, "MOVIE")]) :=
  ⟨by decide,
    (rerun_inserts_nothing (.ok "job-1") (.ok [⟨"1", "movie"⟩])
      (fun _ => .ok [itemA, itemB, itemC]) "job-1" "job-2" 7 "tok" []).1,
    ⟨by decide, by decide, by decide⟩,
    (rerun_inserts_nothing (.ok "job-1") (.ok [⟨"1", "movie"⟩])
      (fun _ => .ok [itemA, itemB, itemC]) "job-1" "job-2" 7 "tok" []).2.2.2
      itemB 603 [(7, 603, "MOVIE")] (by decide) (by decide) (by decide)⟩

/-! ## C15 -/

theorem hasPrefix_append (pre t : String) : hasPrefix (pre ++ t) pre = true := by
  unfold hasPrefix
  rw [String.data_append, List.isPrefixOf_iff_prefix]
  exact List.prefix_append _ _

theorem itemTaskWrites_append (a b : List Event) :
    itemTaskWrites (a ++ b) = itemTaskWrites a ++ itemTaskWrites b := by
  simp [itemTaskWrites, taskWrites_append]

theorem importerCalls_syncMovie {σ : Type} (env : Env σ) (jobId : String) (userId : Nat)
    (movie : PlexLibraryItem) (w : σ) :
    importerCalls (syncMovie env jobId userId movie w).1 =
      (importCall env userId movie).toList := by
  by_cases ht : movie.ViewCount = 0 ∧ movie.UserRating = 0
  · have hf : touched movie = false := by
      cases htt : touched movie with
      | false => rfl
      | true => exact absurd ht ((touched_iff movie).mp htt)
    rw [syncMovie_untouched env jobId userId movie w ht]
    simp [importCall, hf, importerCalls]
  · have htt : touched movie = true := (touched_iff movie).mpr ht
    cases hn : usableTmdbId movie with
    | none =>
      obtain ⟨msg, he, _⟩ := syncMovie_noId env jobId userId movie w ht hn
      rw [he]
      simp [importCall, htt, hn, importerCalls]
    | some n =>
      rw [syncMovie_import env jobId userId movie w n ht hn]
      simp only [importCall, htt, hn, if_true, Option.map_some', Option.toList]
      rcases env.addWatched userId (movieRequest env movie n) env.IMPORTED_WATCHED_PLEX w
        with ⟨_ | err, w1⟩
      · rfl
      · by_cases hd : err.Error = "content already on watched list"
        · simp only [hd, if_true]; rfl
        · simp only [hd, if_false]; rfl

theorem itemTaskWrites_syncMovie {σ : Type} (env : Env σ) (jobId : String) (userId : Nat)
    (movie : PlexLibraryItem) (w : σ) :
    itemTaskWrites (syncMovie env jobId userId movie w).1 =
      if touched movie then [itemTask movie] else [] := by
  have hp : hasPrefix ("importing movie " ++ movie.Title) "importing movie " = true :=
    hasPrefix_append _ _
  by_cases ht : movie.ViewCount = 0 ∧ movie.UserRating = 0
  · have hf : touched movie = false := by
      cases htt : touched movie with
      | false => rfl
      | true => exact absurd ht ((touched_iff movie).mp htt)
    rw [syncMovie_untouched env jobId userId movie w ht]
    simp [hf, itemTaskWrites, taskWrites]
  · have htt : touched movie = true := (touched_iff movie).mpr ht
    cases hn : usableTmdbId movie with
    | none =>
      obtain ⟨msg, he, _⟩ := syncMovie_noId env jobId userId movie w ht hn
      rw [he]
      simp [htt, itemTaskWrites, taskWrites, itemTask, hp]
    | some n =>
      rw [syncMovie_import env jobId userId movie w n ht hn]
      rcases env.addWatched userId (movieRequest env movie n) env.IMPORTED_WATCHED_PLEX w
        with ⟨_ | err, w1⟩
      · simp [htt, itemTaskWrites, taskWrites, itemTask, hp]
      · by_cases hd : err.Error = "content already on watched list"
        · simp [hd, htt, itemTaskWrites, taskWrites, itemTask, hp]
        · simp [hd, htt, itemTaskWrites, taskWrites, itemTask, hp]

theorem walk_syncMovies {σ : Type} (env : Env σ) (jobId : String) (userId : Nat)
    (movies : List PlexLibraryItem) (w : σ) :
    importerCalls (syncMovies env jobId userId movies w).1 =
        movies.filterMap (importCall env userId) ∧
      itemTaskWrites (syncMovies env jobId userId movies w).1 =
        (movies.filter touched).map itemTask := by
  induction movies generalizing w with
  | nil => exact ⟨rfl, rfl⟩
  | cons m rest ih =>
    simp only [syncMovies, importerCalls_append, itemTaskWrites_append,
      importerCalls_syncMovie, itemTaskWrites_syncMovie, (ih _).1, (ih _).2]
    constructor
    · cases hc : importCall env userId m <;> simp [List.filterMap_cons, hc]
    · cases hc : touched m <;> simp [List.filter_cons, hc]

theorem walk_syncLibraries {σ : Type} (env : Env σ) (jobId : String) (userId : Nat)
    (auth : String) (libraries : List PlexLibrary) (w : σ) :
    importerCalls (syncLibraries env jobId userId auth libraries w).1 =
        (fetchedItems env jobId userId auth libraries w).filterMap (importCall env userId) ∧
      itemTaskWrites (syncLibraries env jobId userId auth libraries w).1 =
        ((fetchedItems env jobId userId auth libraries w).filter touched).map itemTask := by
  induction libraries generalizing w with
  | nil => exact ⟨rfl, rfl⟩
  | cons l rest ih =>
    simp only [syncLibraries, fetchedItems, syncLibrary, importerCalls_append,
      itemTaskWrites_append]
    by_cases hm : l.Type_ = env.MOVIES
    · simp only [if_pos hm]
      rcases env.plexGetLibraryItems auth l.Key w with ⟨e | movies, w1⟩
      · simp only [(ih _).1, (ih _).2]
        exact ⟨rfl, rfl⟩
      · simp only [(ih _).1, (ih _).2, importerCalls_append, itemTaskWrites_append,
          (walk_syncMovies env jobId userId movies w1).1,
          (walk_syncMovies env jobId userId movies w1).2, List.filterMap_append,
          List.filter_append, List.map_append]
        exact ⟨rfl, rfl⟩
    · simp only [if_neg hm, (ih _).1, (ih _).2]
      constructor <;> split_ifs <;> rfl

/-- Counterexample to C15: in the A/B/C catalog only B reaches the importer, but
the per-item current-task updates are those of B and of C, which is touched and
has no Guid. -/
theorem item_tasks_not_importer_walk_counterexample :
    (fetchedItems abcEnv "job-1" 7 "tok" [⟨"1", "movie"⟩] []).filter reachesImporter =
      [itemB] ∧
    itemTaskWrites (plexSyncWatched abcEnv "job-1" 7 "tok" []).1 =
      ["importing movie B", "importing movie C"] ∧
    itemTaskWrites (plexSyncWatched abcEnv "job-1" 7 "tok" []).1 ≠
      ((fetchedItems abcEnv "job-1" 7 "tok" [⟨"1", "movie"⟩] []).filter reachesImporter).map
        itemTask := by
  decide

/-- C15, amended: libraries and items are processed one after the other in
catalog order.  When the library fetch succeeds, the `addWatched` calls of a run
are exactly the calls of the items of the catalog walk that reach the importer,
in walk order, and the per-item current-task updates are exactly the texts of
the touched items of the walk, in walk order. -/
theorem plexSyncWatched_walk_order {σ : Type} (env : Env σ) (jobId : String) (userId : Nat)
    (auth : String) (w : σ) (libraries : List PlexLibrary) (w1 : σ)
    (h : env.plexGetLibraries auth w = (.ok libraries, w1)) :
    importerCalls (plexSyncWatched env jobId userId auth w).1 =
      (fetchedItems env jobId userId auth libraries w1).filterMap (importCall env userId) ∧
    itemTaskWrites (plexSyncWatched env jobId userId auth w).1 =
      ((fetchedItems env jobId userId auth libraries w1).filter touched).map itemTask := by
  have ht : (plexSyncWatched env jobId userId auth w).1 =
      [Event.updateJobCurrentTask jobId userId "fetching libraries",
        Event.plexGetLibraries auth] ++
        (syncLibraries env jobId userId auth libraries w1).1 ++
        [Event.updateJobStatus jobId userId JobStatus.JOB_DONE] := by
    unfold plexSyncWatched
    rw [h]
  rw [ht, importerCalls_append, importerCalls_append, itemTaskWrites_append,
    itemTaskWrites_append, (walk_syncLibraries env jobId userId auth libraries w1).1,
    (walk_syncLibraries env jobId userId auth libraries w1).2]
  constructor
  · simp [importerCalls]
  · have h1 : itemTaskWrites [Event.updateJobCurrentTask jobId userId "fetching libraries",
        Event.plexGetLibraries auth] = [] := by
      have hp : hasPrefix "fetching libraries" "importing movie " = false := by decide
      simp [itemTaskWrites, taskWrites, hp]
    have h2 : itemTaskWrites [Event.updateJobStatus jobId userId JobStatus.JOB_DONE] = [] := rfl
    rw [h1, h2]
    simp

/-- Witness for C15 (amended): the A/B/C catalog. -/
theorem plexSyncWatched_walk_order_witness :
    abcEnv.plexGetLibraries "tok" [] = (.ok [⟨"1", "movie"⟩], []) ∧
    fetchedItems abcEnv "job-1" 7 "tok" [⟨"1", "movie"⟩] [] = [itemA, itemB, itemC] ∧
    importerCalls (plexSyncWatched abcEnv "job-1" 7 "tok" []).1 =
      (fetchedItems abcEnv "job-1" 7 "tok" [⟨"1", "movie"⟩] []).filterMap
        (importCall abcEnv 7) ∧
    itemTaskWrites (plexSyncWatched abcEnv "job-1" 7 "tok" []).1 =
      ((fetchedItems abcEnv "job-1" 7 "tok" [⟨"1", "movie"⟩] []).filter touched).map
        itemTask :=
  ⟨rfl, by decide,
    (plexSyncWatched_walk_order abcEnv "job-1" 7 "tok" [] _ _ rfl).1,
    (plexSyncWatched_walk_order abcEnv "job-1" 7 "tok" [] _ _ rfl).2⟩

/-! ## C16 -/

theorem syncLibrary_not_movies {σ : Type} (env : Env σ) (jobId : String) (userId : Nat)
    (auth : String) (library : PlexLibrary) (w : σ) (hn : library.Type_ ≠ env.MOVIES) :
    syncLibrary env jobId userId auth library w = ([], w) := by
  unfold syncLibrary
  rw [if_neg hn]
  split_ifs <;> rfl

theorem syncLibraries_erase_not_movies {σ : Type} (env : Env σ) (jobId : String)
    (userId : Nat) (auth : String) (library : PlexLibrary) (hn : library.Type_ ≠ env.MOVIES)
    (libraries : List PlexLibrary) (w : σ) :
    syncLibraries env jobId userId auth (libraries.erase library) w =
      syncLibraries env jobId userId auth libraries w := by
  induction libraries generalizing w with
  | nil => rfl
  | cons l rest ih =>
    by_cases hl : l = library
    · subst hl
      simp [syncLibraries, syncLibrary_not_movies env jobId userId auth l w hn]
    · have hne : (l == library) = false := by simpa using hl
      rw [List.erase_cons, hne]
      simp [syncLibraries, ih]

theorem syncLibraries_withoutLibrary {σ : Type} (env : Env σ) (library : PlexLibrary)
    (jobId : String) (userId : Nat) (auth : String) (libraries : List PlexLibrary) (w : σ) :
    syncLibraries (env.withoutLibrary library) jobId userId auth libraries w =
      syncLibraries env jobId userId auth libraries w := by
  have hm : ∀ (movies : List PlexLibraryItem) (w : σ),
      syncMovies (env.withoutLibrary library) jobId userId movies w =
        syncMovies env jobId userId movies w := by
    intro movies
    induction movies with
    | nil => intro w; rfl
    | cons m rest ih =>
      intro w
      have h1 : syncMovie (env.withoutLibrary library) jobId userId m w =
          syncMovie env jobId userId m w := rfl
      simp [syncMovies, h1, ih]
  induction libraries generalizing w with
  | nil => rfl
  | cons l rest ih =>
    have hl : syncLibrary (env.withoutLibrary library) jobId userId auth l w =
        syncLibrary env jobId userId auth l w := by
      unfold syncLibrary
      have hM : (env.withoutLibrary library).MOVIES = env.MOVIES := rfl
      have hT : (env.withoutLibrary library).TV_SHOWS = env.TV_SHOWS := rfl
      have hF : (env.withoutLibrary library).plexGetLibraryItems auth l.Key w =
          env.plexGetLibraryItems auth l.Key w := rfl
      rw [hM, hT, hF]
      simp only [hm]
    simp [syncLibraries, hl, ih]

/-- C16: for a library whose `Type` is not movies (a TV-show library included) the
pipeline does nothing: its iteration has no event at all (no current-task update,
no error append, no item fetch, no `addWatched`) and leaves the world as it was;
taking the library out of a list of libraries, or out of the answer of the
library fetch, leaves the whole run, events and final world, unchanged. -/
theorem other_library_skipped {σ : Type} (env : Env σ) (jobId : String) (userId : Nat)
    (auth : String) (library : PlexLibrary) (hn : library.Type_ ≠ env.MOVIES) :
    (∀ w, syncLibrary env jobId userId auth library w = ([], w)) ∧
    (∀ (before after : List PlexLibrary) (w : σ),
      syncLibraries env jobId userId auth (before ++ library :: after) w =
        syncLibraries env jobId userId auth (before ++ after) w) ∧
    (∀ w, plexSyncWatched (env.withoutLibrary library) jobId userId auth w =
      plexSyncWatched env jobId userId auth w) := by
  refine ⟨fun w => syncLibrary_not_movies env jobId userId auth library w hn, ?_, ?_⟩
  · intro before after w
    rw [syncLibraries_append, syncLibraries_append]
    simp [syncLibraries, syncLibrary_not_movies env jobId userId auth library _ hn]
  · intro w
    unfold plexSyncWatched
    have hL : (env.withoutLibrary library).plexGetLibraries auth w =
        match env.plexGetLibraries auth w with
        | (.ok libraries, w1) => (.ok (libraries.erase library), w1)
        | (.error e, w1) => (.error e, w1) := rfl
    rw [hL]
    rcases env.plexGetLibraries auth w with ⟨e | libraries, w1⟩
    · rfl
    · simp only [syncLibraries_withoutLibrary,
        syncLibraries_erase_not_movies env jobId userId auth library hn]

/-- Witness for C16: a TV-show library in front of the movies library. -/
theorem other_library_skipped_witness :
    (⟨"9", "show"⟩ : PlexLibrary).Type_ ≠ tvEnv.MOVIES ∧
    syncLibrary tvEnv "job-1" 7 "tok" ⟨"9", "show"⟩ [] = ([], []) ∧
    syncLibraries tvEnv "job-1" 7 "tok" ([] ++ ⟨"9", "show"⟩ :: [⟨"1", "movie"⟩]) [] =
      syncLibraries tvEnv "job-1" 7 "tok" ([] ++ [⟨"1", "movie"⟩]) [] ∧
    plexSyncWatched (tvEnv.withoutLibrary ⟨"9", "show"⟩) "job-1" 7 "tok" [] =
      plexSyncWatched tvEnv "job-1" 7 "tok" [] :=
  ⟨by decide,
    (other_library_skipped tvEnv "job-1" 7 "tok" ⟨"9", "show"⟩ (by decide)).1 [],
    (other_library_skipped tvEnv "job-1" 7 "tok" ⟨"9", "show"⟩ (by decide)).2.1
      [] [⟨"1", "movie"⟩] [],
    (other_library_skipped tvEnv "job-1" 7 "tok" ⟨"9", "show"⟩ (by decide)).2.2 []⟩

/-! ## C17 -/

/-- C17: a job query by a user other than the owner fails with `Forbidden`, also
for a job that exists and is `RUNNING`; the route hands the authenticated user's
id to `getJob` and, whenever `getJob` fails, answers with status 403 and an
`ErrorResponse` holding the error message, not the job. -/
theorem jobRoute_forbidden (jobs : List Job) (id : String) (userId : Nat) (j : Job)
    (hj : jobs.find? (fun x => x.id = id) = some j) (ho : j.ownerUserId ≠ userId) :
    getJob jobs id userId = .error errJobForbidden ∧
    jobRoute (getJob jobs) userId id =
      ⟨StatusForbidden, .error ⟨errJobForbidden.Error⟩⟩ ∧
    (∀ (getJobFn : String → Nat → Except GoError Job) (e : GoError),
      getJobFn id userId = .error e →
      jobRoute getJobFn userId id = ⟨403, .error ⟨e.Error⟩⟩) := by
  have hg : getJob jobs id userId = .error errJobForbidden := by
    unfold getJob
    rw [hj]
    simp [ho]
  refine ⟨hg, ?_, ?_⟩
  · unfold jobRoute
    rw [hg]
  · intro getJobFn e he
    unfold jobRoute
    rw [he]
    rfl

/-- Witness for C17: user 8 asks for the running job of user 7. -/
theorem jobRoute_forbidden_witness :
    runningJobs.find? (fun x => x.id = "job-1") = some runningJob ∧
    runningJob.status = JobStatus.JOB_RUNNING ∧ runningJob.ownerUserId ≠ 8 ∧
    (jobRoute (getJob runningJobs) 8 "job-1").status = 403 ∧
    (jobRoute (getJob runningJobs) 8 "job-1").body = .error ⟨"forbidden"⟩ ∧
    (jobRoute (getJob runningJobs) 7 "job-1").status = 200 :=
  ⟨by decide, rfl, by decide,
    congrArg JobResponse.status
      (jobRoute_forbidden runningJobs "job-1" 8 runningJob (by decide) (by decide)).2.1,
    congrArg JobResponse.body
      (jobRoute_forbidden runningJobs "job-1" 8 runningJob (by decide) (by decide)).2.1,
    by decide⟩

/-! ## C19 -/

/-- C19: `c.GetSafe()` is `c` with `JWT_SECRET` removed: the result has the empty
`JWT_SECRET`, which the JSON encoding leaves out, every other field is that of
`c`, and the receiver is unchanged. -/
theorem getSafe_removes_secret (c : ServerConfig) :
    c.GetSafe.1.JWT_SECRET = "" ∧
    c.GetSafe.1.JELLYFIN_HOST = c.JELLYFIN_HOST ∧
    c.GetSafe.1.SIGNUP_ENABLED = c.SIGNUP_ENABLED ∧
    c.GetSafe.1.TMDB_KEY = c.TMDB_KEY ∧
    c.GetSafe.1.SONARR = c.SONARR ∧
    c.GetSafe.1.RADARR = c.RADARR ∧
    c.GetSafe.1.DEBUG = c.DEBUG ∧
    c.GetSafe.1 = { c with JWT_SECRET := "" } ∧
    c.GetSafe.2 = c ∧
    (marshalConfig c.GetSafe.1).JWT_SECRET = none :=
  ⟨rfl, rfl, rfl, rfl, rfl, rfl, rfl, rfl, rfl, rfl⟩

/-! ## C20 -/

theorem decode_marshal (c : ServerConfig) :
    decodeConfig (marshalConfig c) defaultConfig = { c with SIGNUP_ENABLED := true } := by
  obtain ⟨jwt, jf, su, tk, so, ra, dbg⟩ := c
  have hs : ∀ s : String, (omitEmptyString s).getD "" = s := by
    intro s
    unfold omitEmptyString
    split_ifs with h
    · simp [h]
    · rfl
  have hl : ∀ {α : Type} (l : List α), (omitEmptySlice l).getD [] = l := by
    intro α l
    unfold omitEmptySlice
    split_ifs with h
    · simp [List.length_eq_zero.mp h]
    · rfl
  have hb : ∀ b : Bool, (omitEmptyBool b).getD false = b := by decide
  have ht : ∀ b : Bool, (omitEmptyBool b).getD true = true := by decide
  simp only [decodeConfig, marshalConfig, defaultConfig, ServerConfig.zero, hs, hl, hb, ht]

theorem write_read_config (key : Except GoError String) (s : ConfigState)
    (hjwt : s.Config.JWT_SECRET ≠ "") :
    (readConfig key (freshProcess (writeConfig s).2)).1 = .returned none ∧
    (readConfig key (freshProcess (writeConfig s).2)).2.Config =
      { s.Config with SIGNUP_ENABLED := true } := by
  have hd := decode_marshal s.Config
  simp only [writeConfig, freshProcess, readConfig]
  rw [hd]
  rw [if_neg hjwt]
  exact ⟨rfl, rfl⟩

/-- C20 fails on the code: a config with `SIGNUP_ENABLED = false` and a non-empty
`JWT_SECRET` is written without the key `SIGNUP_ENABLED` (`omitempty` leaves
`false` out), and a fresh process, whose `Config` starts with `SIGNUP_ENABLED =
true`, reads it back with `SIGNUP_ENABLED = true`: the loaded config differs from
the one written.  `DEBUG` and the other fields come back as written. -/
theorem write_read_loses_signup_off :
    signupOffConfig.JWT_SECRET ≠ "" ∧
    (writeConfig ⟨signupOffConfig, none⟩).2.file =
      some { JWT_SECRET := some "s3cret", JELLYFIN_HOST := none, SIGNUP_ENABLED := none,
             TMDB_KEY := none, SONARR := none, RADARR := none, DEBUG := some true } ∧
    (readConfig (.ok "unused")
      (freshProcess (writeConfig ⟨signupOffConfig, none⟩).2)).1 = .returned none ∧
    (readConfig (.ok "unused")
      (freshProcess (writeConfig ⟨signupOffConfig, none⟩).2)).2.Config.SIGNUP_ENABLED = true ∧
    (readConfig (.ok "unused")
      (freshProcess (writeConfig ⟨signupOffConfig, none⟩).2)).2.Config.DEBUG = true ∧
    (readConfig (.ok "unused")
      (freshProcess (writeConfig ⟨signupOffConfig, none⟩).2)).2.Config ≠ signupOffConfig := by
  decide

/-! ## C21 -/

theorem sliceFrom_of_hasPrefix (s : String) (h : hasPrefix s "tmdb://" = true) :
    s = "tmdb://" ++ sliceFrom s 7 := by
  unfold hasPrefix at h
  rw [List.isPrefixOf_iff_prefix] at h
  obtain ⟨t, ht⟩ := h
  apply String.ext
  rw [String.data_append]
  show s.data = "tmdb://".data ++ s.data.drop 7
  rw [← ht]
  rfl

theorem findTmdbIdStr_first_prefixed (before after : List PlexGuid) (g : PlexGuid)
    (hb : ∀ v ∈ before, hasPrefix v.ID "tmdb://" = false)
    (hg : hasPrefix g.ID "tmdb://" = true) :
    findTmdbIdStr (before ++ g :: after) = sliceFrom g.ID 7 := by
  induction before with
  | nil => simp [findTmdbIdStr, hg]
  | cons v rest ih =>
    have hv : hasPrefix v.ID "tmdb://" = false := hb v (List.mem_cons_self _ _)
    simp only [List.cons_append, findTmdbIdStr, hv]
    exact ih (fun x hx => hb x (List.mem_cons_of_mem _ hx))

/-- C21: for a touched movie with a non-empty Guid list the guid loop is reached,
and the tmdb id text the pipeline uses is the ID of the first Guid, in list order, that starts with
`tmdb://`, with exactly that prefix removed (and the empty text when no Guid
starts with it); the Guids after the first prefixed one play no part in the text
or in the iteration; and the item reaches the importer exactly when the text is
non-empty and parses as an integer. -/
theorem tmdb_id_text_first_prefixed {σ : Type} (env : Env σ) (jobId : String) (userId : Nat)
    (movie : PlexLibraryItem) (w : σ) (ht : touched movie = true) (hg : movie.Guid ≠ []) :
    ¬ (movie.Guid.length ≤ 0) ∧
    (∀ g, firstTmdbGuid movie = some g →
      findTmdbIdStr movie.Guid = sliceFrom g.ID 7 ∧
      g.ID = "tmdb://" ++ findTmdbIdStr movie.Guid) ∧
    (firstTmdbGuid movie = none → findTmdbIdStr movie.Guid = "") ∧
    (∀ (before after after' : List PlexGuid) (g : PlexGuid),
      (∀ v ∈ before, hasPrefix v.ID "tmdb://" = false) → hasPrefix g.ID "tmdb://" = true →
      findTmdbIdStr (before ++ g :: after) = sliceFrom g.ID 7 ∧
      syncMovie env jobId userId { movie with Guid := before ++ g :: after } w =
        syncMovie env jobId userId { movie with Guid := before ++ g :: after' } w) ∧
    (importerCalls (syncMovie env jobId userId movie w).1 ≠ [] ↔
      findTmdbIdStr movie.Guid ≠ "" ∧ ∃ n, atoi (findTmdbIdStr movie.Guid) = some n) := by
  refine ⟨?_, ?_, ?_, ?_, ?_⟩
  · intro hl
    exact hg (List.length_eq_zero.mp (Nat.le_zero.mp hl))
  · intro g hfg
    have hfind : findTmdbIdStr movie.Guid = sliceFrom g.ID 7 := by
      rw [findTmdbIdStr_eq_find]
      unfold firstTmdbGuid at hfg
      rw [hfg]
    have hp : hasPrefix g.ID "tmdb://" = true := by
      unfold firstTmdbGuid at hfg
      simpa using List.find?_some hfg
    refine ⟨hfind, ?_⟩
    rw [hfind]
    exact sliceFrom_of_hasPrefix g.ID hp
  · intro hnone
    rw [findTmdbIdStr_eq_find]
    unfold firstTmdbGuid at hnone
    rw [hnone]
  · intro before after after' g hb hp
    have h1 := findTmdbIdStr_first_prefixed before after g hb hp
    have h2 := findTmdbIdStr_first_prefixed before after' g hb hp
    refine ⟨h1, ?_⟩
    unfold syncMovie
    simp only [h1, h2, List.length_append, List.length_cons]
    have e1 : ¬ (before.length + (after.length + 1) ≤ 0) := by omega
    have e2 : ¬ (before.length + (after'.length + 1) ≤ 0) := by omega
    rw [if_neg e1, if_neg e2]
    rfl
  · rw [importerCalls_syncMovie, importCall, if_pos ht, ← atoi_findTmdbIdStr]
    cases ha : atoi (findTmdbIdStr movie.Guid) with
    | none => simp
    | some n =>
      have hne : findTmdbIdStr movie.Guid ≠ "" := by
        intro he
        rw [he, atoi_empty] at ha
        cases ha
      simp [hne]

/-- Witness for C21: the first prefixed Guid of D reads `tmdb://6o3`; the text is
`6o3`, the well-formed Guid after it is not used and D does not reach the
importer. -/
theorem tmdb_id_text_first_prefixed_witness :
    touched itemD = true ∧ itemD.Guid ≠ [] ∧
    firstTmdbGuid itemD = some ⟨"tmdb://6o3"⟩ ∧
    (findTmdbIdStr itemD.Guid = sliceFrom "tmdb://6o3" 7 ∧
      "tmdb://6o3" = "tmdb://" ++ findTmdbIdStr itemD.Guid) ∧
    findTmdbIdStr itemD.Guid = "6o3" ∧
    ¬ (importerCalls (syncMovie abcEnv "job-1" 7 itemD []).1 ≠ []) :=
  ⟨by decide, by decide, by decide,
    (tmdb_id_text_first_prefixed abcEnv "job-1" 7 itemD [] (by decide) (by decide)).2.1
      ⟨"tmdb://6o3"⟩ (by decide),
    by decide,
    fun h =>
      Exists.elim ((tmdb_id_text_first_prefixed abcEnv "job-1" 7 itemD [] (by decide)
        (by decide)).2.2.2.2.mp h).2
        (fun _ hn => Option.noConfusion
          ((show atoi (findTmdbIdStr itemD.Guid) = none by decide).symm.trans hn))⟩

/-! ## C22 -/

theorem len_of_hasPrefix (s : String) (h : hasPrefix s "tmdb://" = true) : 7 ≤ len s := by
  unfold hasPrefix at h
  rw [List.isPrefixOf_iff_prefix] at h
  have hle := String.utf8Len_le_of_prefix h
  have h7 : String.utf8Len "tmdb://".data = 7 := by decide
  rw [h7] at hle
  obtain ⟨cs⟩ := s
  exact hle

theorem sliceFromChecked_of_hasPrefix (s : String) (h : hasPrefix s "tmdb://" = true) :
    sliceFromChecked s 7 = some (sliceFrom s 7) := by
  unfold sliceFromChecked
  rw [if_pos (len_of_hasPrefix s h)]

theorem findTmdbIdStrChecked_eq (guids : List PlexGuid) :
    findTmdbIdStrChecked guids = some (findTmdbIdStr guids) := by
  induction guids with
  | nil => rfl
  | cons v rest ih =>
    by_cases hp : hasPrefix v.ID "tmdb://" = true
    · simp only [findTmdbIdStrChecked, findTmdbIdStr, hp, if_true]
      exact sliceFromChecked_of_hasPrefix v.ID hp
    · simp only [findTmdbIdStrChecked, findTmdbIdStr, hp, if_false]
      exact ih

theorem syncMovieChecked_eq {σ : Type} (env : Env σ) (jobId : String) (userId : Nat)
    (movie : PlexLibraryItem) (w : σ) :
    syncMovieChecked env jobId userId movie w = some (syncMovie env jobId userId movie w) := by
  unfold syncMovieChecked syncMovie
  rw [findTmdbIdStrChecked_eq]
  by_cases h1 : movie.ViewCount = 0 ∧ movie.UserRating = 0
  · rw [if_pos h1, if_pos h1]
  · rw [if_neg h1, if_neg h1]
    by_cases h2 : movie.Guid.length ≤ 0
    · rw [if_pos h2, if_pos h2]
    · rw [if_neg h2, if_neg h2]
      simp only
      by_cases h3 : findTmdbIdStr movie.Guid = ""
      · rw [if_pos h3, if_pos h3]
      · rw [if_neg h3, if_neg h3]
        cases atoi (findTmdbIdStr movie.Guid) with
        | none => rfl
        | some n =>
          simp only
          rcases env.addWatched userId (movieRequest env movie n) env.IMPORTED_WATCHED_PLEX w
            with ⟨_ | err, w1⟩
          · rfl
          · simp only
            split_ifs <;> rfl

theorem syncMoviesChecked_eq {σ : Type} (env : Env σ) (jobId : String) (userId : Nat)
    (movies : List PlexLibraryItem) (w : σ) :
    syncMoviesChecked env jobId userId movies w =
      some (syncMovies env jobId userId movies w) := by
  induction movies generalizing w with
  | nil => rfl
  | cons m rest ih =>
    simp only [syncMoviesChecked, syncMovieChecked_eq, ih, syncMovies]

theorem syncLibraryChecked_eq {σ : Type} (env : Env σ) (jobId : String) (userId : Nat)
    (auth : String) (library : PlexLibrary) (w : σ) :
    syncLibraryChecked env jobId userId auth library w =
      some (syncLibrary env jobId userId auth library w) := by
  unfold syncLibraryChecked syncLibrary
  split_ifs
  · rcases env.plexGetLibraryItems auth library.Key w with ⟨e | movies, w1⟩
    · rfl
    · simp only [syncMoviesChecked_eq]
  · rfl
  · rfl

theorem syncLibrariesChecked_eq {σ : Type} (env : Env σ) (jobId : String) (userId : Nat)
    (auth : String) (libraries : List PlexLibrary) (w : σ) :
    syncLibrariesChecked env jobId userId auth libraries w =
      some (syncLibraries env jobId userId auth libraries w) := by
  induction libraries generalizing w with
  | nil => rfl
  | cons l rest ih =>
    simp only [syncLibrariesChecked, syncLibraryChecked_eq, ih, syncLibraries]

theorem plexSyncWatchedChecked_eq {σ : Type} (env : Env σ) (jobId : String) (userId : Nat)
    (auth : String) (w : σ) :
    plexSyncWatchedChecked env jobId userId auth w =
      some (plexSyncWatched env jobId userId auth w) := by
  unfold plexSyncWatchedChecked plexSyncWatched
  rcases env.plexGetLibraries auth w with ⟨e | libraries, w1⟩
  · rfl
  · simp only [syncLibrariesChecked_eq]

theorem itemFetches_syncMovie {σ : Type} (env : Env σ) (jobId : String) (userId : Nat)
    (movie : PlexLibraryItem) (w : σ) :
    itemFetches (syncMovie env jobId userId movie w).1 = [] := by
  unfold syncMovie
  split_ifs
  · rfl
  · rfl
  · rfl
  · split
    · rfl
    · split
      · rfl
      · split_ifs <;> rfl

theorem itemFetches_syncMovies {σ : Type} (env : Env σ) (jobId : String) (userId : Nat)
    (movies : List PlexLibraryItem) (w : σ) :
    itemFetches (syncMovies env jobId userId movies w).1 = [] := by
  induction movies generalizing w with
  | nil => rfl
  | cons m rest ih => simp [syncMovies, itemFetches_append, itemFetches_syncMovie, ih]

theorem itemFetches_syncLibraries {σ : Type} (env : Env σ) (jobId : String) (userId : Nat)
    (auth : String) (libraries : List PlexLibrary) (w : σ) :
    itemFetches (syncLibraries env jobId userId auth libraries w).1 =
      (libraries.filter (fun l => l.Type_ = env.MOVIES)).map (fun l => l.Key) := by
  induction libraries generalizing w with
  | nil => rfl
  | cons l rest ih =>
    simp only [syncLibraries, itemFetches_append, ih]
    by_cases hm : l.Type_ = env.MOVIES
    · have hl : itemFetches (syncLibrary env jobId userId auth l w).1 = [l.Key] := by
        unfold syncLibrary
        rw [if_pos hm]
        rcases env.plexGetLibraryItems auth l.Key w with ⟨e | movies, w1⟩
        · rfl
        · simp only
          rw [itemFetches_append, itemFetches_syncMovies]
          rfl
      rw [hl]
      simp [List.filter_cons, hm]
    · rw [syncLibrary_not_movies env jobId userId auth l w hm]
      simp [List.filter_cons, hm, itemFetches]

/-- C22: `plexSyncWatched` is total and never fails on an out-of-range slice.  A
Guid ID that passes the prefix test has at least 7 bytes, so the checked slice
`v.ID[7:]` succeeds wherever it is evaluated; the guid loop and the whole run
with checked slices end without panic, with the result of `plexSyncWatched`, for
every catalog and every Guid ID; and the run visits each library and each item
once: the items of each movies library are fetched exactly once, in catalog
order, and each touched item of a library is narrated exactly once, in order. -/
theorem plexSyncWatched_total {σ : Type} (env : Env σ) (jobId : String) (userId : Nat)
    (auth : String) (w : σ) :
    (∀ v : PlexGuid, hasPrefix v.ID "tmdb://" = true →
      7 ≤ len v.ID ∧ sliceFromChecked v.ID 7 = some (sliceFrom v.ID 7)) ∧
    (∀ guids : List PlexGuid, findTmdbIdStrChecked guids = some (findTmdbIdStr guids)) ∧
    plexSyncWatchedChecked env jobId userId auth w =
      some (plexSyncWatched env jobId userId auth w) ∧
    (∀ (libraries : List PlexLibrary) (w1 : σ),
      itemFetches (syncLibraries env jobId userId auth libraries w1).1 =
        (libraries.filter (fun l => l.Type_ = env.MOVIES)).map (fun l => l.Key)) ∧
    (∀ (movies : List PlexLibraryItem) (w1 : σ),
      itemTaskWrites (syncMovies env jobId userId movies w1).1 =
        (movies.filter touched).map itemTask) :=
  ⟨fun v hp => ⟨len_of_hasPrefix v.ID hp, sliceFromChecked_of_hasPrefix v.ID hp⟩,
    findTmdbIdStrChecked_eq,
    plexSyncWatchedChecked_eq env jobId userId auth w,
    itemFetches_syncLibraries env jobId userId auth,
    fun movies w1 => (walk_syncMovies env jobId userId movies w1).2⟩

/-- Witness for C22: a catalog with Guid IDs that are empty, shorter than the
prefix, or the bare prefix; the run ends, without a slice out of range. -/
theorem plexSyncWatched_total_witness :
    hasPrefix "" "tmdb://" = false ∧ hasPrefix "tmdb:/" "tmdb://" = false ∧
    (hasPrefix "tmdb://" "tmdb://" = true ∧ 7 ≤ len "tmdb://" ∧
      sliceFromChecked "tmdb://" 7 = some "") ∧
    findTmdbIdStrChecked itemE.Guid = some "" ∧
    plexSyncWatchedChecked shortGuidEnv "job-1" 7 "tok" [] =
      some (plexSyncWatched shortGuidEnv "job-1" 7 "tok" []) ∧
    jobErrors (plexSyncWatched shortGuidEnv "job-1" 7 "tok" []).1 =
      ["movie could not be imported (no tmdbId present): E"] ∧
    itemFetches (syncLibraries shortGuidEnv "job-1" 7 "tok"
      [⟨"1", "movie"⟩, ⟨"9", "show"⟩] []).1 = ["1"] :=
  ⟨by decide, by decide,
    ⟨by decide,
      ((plexSyncWatched_total shortGuidEnv "job-1" 7 "tok" []).1 ⟨"tmdb://"⟩ (by decide)).1,
      ((plexSyncWatched_total shortGuidEnv "job-1" 7 "tok" []).1 ⟨"tmdb://"⟩ (by decide)).2⟩,
    (plexSyncWatched_total shortGuidEnv "job-1" 7 "tok" []).2.1 itemE.Guid,
    (plexSyncWatched_total shortGuidEnv "job-1" 7 "tok" []).2.2.1,
    by decide,
    (plexSyncWatched_total shortGuidEnv "job-1" 7 "tok" []).2.2.2.1
      [⟨"1", "movie"⟩, ⟨"9", "show"⟩] []⟩

end Watcharr
